import Mathlib

/-!
Shallow embedding of the Uthernet II (WIZnet W5100) emulation core found in
src/periph/uthernet2.c of the bobbin Apple II emulator, together with proofs
checking the natural-language specification against it.

Byte arrays of the C code (the 32 KiB W5100 memory image, the per-socket
4 KiB rx_buf staging buffers, frames) are modelled as functions Nat → Nat
holding byte values; pointer-and-length pairs of the C code become a
function plus an explicit length.  Host operating-system interactions
(socket, connect, poll, recv, send, accept and their results) are modelled
by explicit environment records supplying the outcome of each call, and
close(fd) calls are recorded in a closed_log list carried by the state.
C unsigned 16-bit (word) arithmetic is made explicit with % 0x10000, and
the idiom (x - y) & (m - 1) on int-promoted words is modelled by cdiff.
-/

namespace Uthernet2

/-- LO(w) macro: low byte of a 16-bit value. -/
def LOB (w : Nat) : Nat := w % 256

/-- HI(w) macro: high byte of a 16-bit value. -/
def HIB (w : Nat) : Nat := w / 256 % 256

/-- WORD(lo, hi) macro: assemble a 16-bit value from two bytes. -/
def wordOf (l h : Nat) : Nat := 256 * h + l

/-- Model of the C idiom (x - y) & (m - 1) where x and y are word values
promoted to int and m is a power of two dividing 2^16: two's-complement
subtraction followed by the mask equals the mathematical residue mod m. -/
def cdiff (x y m : Nat) : Nat := (((x : Int) - (y : Int)) % (m : Int)).toNat

/-- Pointwise update of a byte-array function: data[i] = v. -/
def upd (f : Nat → Nat) (i v : Nat) : Nat → Nat :=
  fun j => if j = i then v else f j

/-- Write a list of bytes at consecutive indices (memcpy from a literal). -/
def wrList (f : Nat → Nat) (i : Nat) : List Nat → (Nat → Nat)
  | [] => f
  | b :: bs => wrList (upd f i b) (i + 1) bs

/-- Copy n bytes from a source byte array starting at si (memcpy). -/
def wrCpy (f : Nat → Nat) (i : Nat) (src : Nat → Nat) (si n : Nat) : Nat → Nat :=
  match n with
  | 0 => f
  | m + 1 => wrCpy (upd f i (src si)) (i + 1) src (si + 1) m

/-- State of one emulated socket (struct SocketState). -/
structure SocketState where
  fd : Int
  connecting : Bool
  rx_buf : Nat → Nat
  rx_head : Nat
  rx_tail : Nat
  macraw_mode : Bool

/-- State of the single translated TCP connection (struct virtual_tcp). -/
structure VTcpState where
  fd : Int
  remote_mac : Nat → Nat
  remote_ip : Nat → Nat
  local_ip : Nat → Nat
  remote_port : Nat
  local_port : Nat
  our_seq : Nat
  their_seq : Nat
  established : Bool
  fin_sent : Bool
  fin_received : Bool

/-- Virtual DHCP state machine (enum DhcpState). -/
inductive DhcpState where
  | idle
  | discoverSeen
  | offerSent
  | requestSeen
  | complete
deriving DecidableEq

/-- Full card state: struct Uthernet2State u2, the virtual_tcp singleton,
and a log of host file descriptors passed to close(). -/
structure CardState where
  memory : Nat → Nat
  addr_ptr : Nat
  mode : Nat
  sockets : Nat → SocketState
  initialized : Bool
  dhcp_state : DhcpState
  dhcp_xid : Nat → Nat
  client_mac : Nat → Nat
  vtcp : VTcpState
  closed_log : List Int

/-- Replace the state of socket n. -/
def updSock (s : CardState) (n : Nat) (g : SocketState → SocketState) : CardState :=
  { s with sockets := fun m => if m = n then g (s.sockets m) else s.sockets m }

/-- Fold the carries of a one's-complement accumulator:
while (sum >> 16) sum = (sum & 0xFFFF) + (sum >> 16). -/
def foldCarry (sum : Nat) : Nat :=
  if h : sum >>> 16 = 0 then sum
  else foldCarry ((sum &&& 0xFFFF) + (sum >>> 16))
termination_by sum
decreasing_by
  have h1 : sum >>> 16 = sum / 65536 := by
    simpa using Nat.shiftRight_eq_div_pow sum 16
  have h2 : sum &&& 0xFFFF = sum % 65536 := by
    have hx := Nat.and_pow_two_sub_one_eq_mod sum 16
    norm_num at hx
    exact hx
  rw [h1] at h
  rw [h1, h2]
  omega

/-- Sum of big-endian 16-bit words of data[i..len), an odd trailing byte
being the high byte of a zero-padded word (the loop of ip_checksum and
tcp_checksum). -/
def sum16 (data : Nat → Nat) (len i : Nat) : Nat :=
  if h : i < len then
    ((data i <<< 8) ||| (if i + 1 < len then data (i + 1) else 0)) + sum16 data len (i + 2)
  else 0
termination_by len - i
decreasing_by omega

/-- ip_checksum: 16-bit one's-complement sum, folded, then inverted
(~sum & 0xFFFF equals 0xFFFF - sum once sum ≤ 0xFFFF after folding). -/
def ip_checksum (data : Nat → Nat) (len : Nat) : Nat :=
  0xFFFF - foldCarry (sum16 data len 0)

/-- tcp_checksum: the same sum over an IPv4 pseudo-header (source IP,
destination IP, zero, protocol 6, TCP length) followed by the TCP
header and payload. -/
def tcp_checksum (ip tcp : Nat → Nat) (tcp_len : Nat) : Nat :=
  0xFFFF - foldCarry (((ip 12 <<< 8) ||| ip 13) + ((ip 14 <<< 8) ||| ip 15)
    + ((ip 16 <<< 8) ||| ip 17) + ((ip 18 <<< 8) ||| ip 19) + 6 + tcp_len
    + sum16 tcp tcp_len 0)

/-- Option walk of detect_dhcp_type: starting at the options area, skip
pads, return the value of option 53 when found before the 255 end mark. -/
def dhcp_opt_scan (frame : Nat → Nat) (len idx : Nat) : Int :=
  if h : idx < len ∧ frame idx ≠ 255 then
    if frame idx = 0 then dhcp_opt_scan frame len (idx + 1)
    else if frame idx = 53 ∧ idx + 2 < len then (frame (idx + 2) : Int)
    else dhcp_opt_scan frame len (idx + 2 + frame (idx + 1))
  else -1
termination_by len - idx
decreasing_by
  · omega
  · omega

/-- detect_dhcp_type: a frame is DHCP when it is long enough, EtherType
0x0800, IP protocol 17, UDP ports 68 to 67, and carries the magic cookie;
the result is the option 53 message type, and -1 otherwise. -/
def detect_dhcp_type (frame : Nat → Nat) (len : Nat) : Int :=
  if len < 286 then -1
  else if ¬(frame 12 = 0x08 ∧ frame 13 = 0x00) then -1
  else if frame 23 ≠ 17 then -1
  else if ¬(((frame 34 <<< 8) ||| frame 35) = 68 ∧ ((frame 36 <<< 8) ||| frame 37) = 67) then -1
  else if ¬(frame 278 = 99 ∧ frame 279 = 130 ∧ frame 280 = 83 ∧ frame 281 = 99) then -1
  else dhcp_opt_scan frame len 282

/-- Byte image of the DHCP response packet built by inject_dhcp_response,
including the 2-byte length prefix placeholder; the IP total length 0x148,
the UDP length 0x134 and the final position 344 are the values the C code
computes from its running position counter.  The IP checksum bytes (global
offsets 26 and 27) are patched afterwards, as in the C code. -/
def dhcpPacket (xid mac : Nat → Nat) (is_ack : Bool) : List Nat :=
  [0, 0] ++                                                 -- length prefix placeholder
  ([0xFF, 0xFF, 0xFF, 0xFF, 0xFF, 0xFF] ++                  -- Ethernet dst: broadcast
  ([0x02, 0x00, 0x00, 0x00, 0x00, 0x01] ++                  -- src = VIRTUAL_SERVER_MAC
  ([0x08, 0x00] ++                                          -- EtherType IPv4
  ([0x45, 0x00, 0x01, 0x48, 0x00, 0x00, 0x00, 0x00,         -- IP header, len = 328
    64, 17, 0x00, 0x00, 192, 168, 65, 1] ++                 -- TTL, UDP, cksum, src IP
  ((if is_ack then [192, 168, 65, 100] else [255, 255, 255, 255]) ++  -- dst IP
  ([0x00, 67, 0x00, 68, 0x01, 0x34, 0x00, 0x00] ++          -- UDP 67 -> 68, len = 308
  ([2, 1, 6, 0] ++                                          -- BOOTREPLY, Ethernet, 6, hops
  ([xid 0, xid 1, xid 2, xid 3] ++
  ([0, 0, 0, 0] ++                                          -- secs, flags
  ([0, 0, 0, 0] ++                                          -- ciaddr
  ([192, 168, 65, 100] ++                                   -- yiaddr = VIRTUAL_CLIENT_IP
  ([192, 168, 65, 1] ++                                     -- siaddr = VIRTUAL_SERVER_IP
  ([0, 0, 0, 0] ++                                          -- giaddr
  ([mac 0, mac 1, mac 2, mac 3, mac 4, mac 5] ++            -- chaddr
  (List.replicate 10 0 ++                                   -- chaddr padding
  (List.replicate 64 0 ++                                   -- sname
  (List.replicate 128 0 ++                                  -- file
  ([99, 130, 83, 99] ++                                     -- magic cookie
  ([53, 1, if is_ack then 5 else 2] ++                      -- option 53: ACK or OFFER
  ([54, 4, 192, 168, 65, 1] ++                              -- option 54: server id
  ([51, 4, 0x00, 0x01, 0x51, 0x80] ++                       -- option 51: lease 86400 s
  ([1, 4, 255, 255, 255, 0] ++                              -- option 1: subnet
  ([3, 4, 192, 168, 65, 1] ++                               -- option 3: router
  ([6, 4, 8, 8, 8, 8] ++                                    -- option 6: DNS
  ([255] ++                                                 -- end option
  List.replicate 26 0)))))))))))))))))))))))))              -- pad DHCP body to 300

/-- Buffer contents after the body of inject_dhcp_response is laid down. -/
def dhcpStage1 (buf : Nat → Nat) (xid mac : Nat → Nat) (is_ack : Bool) : Nat → Nat :=
  wrList buf 0 (dhcpPacket xid mac is_ack)

/-- Buffer contents after the IP checksum patch of inject_dhcp_response. -/
def dhcpStage2 (buf : Nat → Nat) (xid mac : Nat → Nat) (is_ack : Bool) : Nat → Nat :=
  let f1 := dhcpStage1 buf xid mac is_ack
  let ck := ip_checksum (fun k => f1 (16 + k)) 20
  upd (upd f1 26 (ck >>> 8)) 27 (ck &&& 0xFF)

/-- Buffer contents after the W5100 length prefix patch (344 = 0x158). -/
def dhcpStage3 (buf : Nat → Nat) (xid mac : Nat → Nat) (is_ack : Bool) : Nat → Nat :=
  upd (upd (dhcpStage2 buf xid mac is_ack) 0 ((344 >>> 8) &&& 0xFF)) 1 (344 &&& 0xFF)

/-- inject_dhcp_response: build the packet at the start of the RX staging
buffer, patch the IP checksum and the W5100 length prefix, and reset
head to 0 and tail to the packet end. -/
def inject_dhcp_response (s : CardState) (n : Nat) (is_ack : Bool) : CardState :=
  updSock s n fun t =>
    { t with rx_buf := dhcpStage3 t.rx_buf s.dhcp_xid s.client_mac is_ack,
             rx_head := 0, rx_tail := 344 % 0x10000 }

/-- Byte image of the 44-byte ARP reply built by inject_arp_reply,
with its 2-byte length prefix placeholder.  Offsets 22..27 of the request
frame are the sender hardware address, 28..31 the sender protocol address. -/
def arpPacket (frame : Nat → Nat) : List Nat :=
  [0, 0] ++                                                          -- length prefix
  ([frame 22, frame 23, frame 24, frame 25, frame 26, frame 27] ++   -- dst = requester MAC
  ([0x02, 0x00, 0xDE, 0xAD, 0xBE, 0x01] ++                           -- src = gateway MAC
  ([0x08, 0x06] ++                                                   -- EtherType ARP
  ([0x00, 0x01, 0x08, 0x00, 6, 4, 0x00, 0x02] ++                     -- Ethernet, IPv4, reply
  ([0x02, 0x00, 0xDE, 0xAD, 0xBE, 0x01] ++                           -- sender hw = gateway
  ([192, 168, 65, 1] ++                                              -- sender proto = gateway
  ([frame 22, frame 23, frame 24, frame 25, frame 26, frame 27] ++   -- target hw = requester
  [frame 28, frame 29, frame 30, frame 31])))))))                    -- target proto = requester

/-- Buffer contents written by inject_arp_reply: the reply body followed
by the length prefix patch (44 bytes in total). -/
def arpStage (buf : Nat → Nat) (frame : Nat → Nat) : Nat → Nat :=
  upd (upd (wrList buf 0 (arpPacket frame)) 0 ((44 >>> 8) &&& 0xFF)) 1 (44 &&& 0xFF)

/-- inject_arp_reply: write the reply at the start of the RX staging
buffer, patch the length prefix (44), and reset head to 0, tail to 44. -/
def inject_arp_reply (s : CardState) (n : Nat) (frame : Nat → Nat) : CardState :=
  updSock s n fun t =>
    { t with rx_buf := arpStage t.rx_buf frame, rx_head := 0, rx_tail := 44 % 0x10000 }

/-- handle_arp_packet: reply only to an ARP request (operation 1) of at
least 42 bytes whose target protocol address is the virtual gateway. -/
def handle_arp_packet (s : CardState) (n : Nat) (frame : Nat → Nat) (len : Nat) : CardState :=
  if len < 42 then s
  else if ((frame 20 <<< 8) ||| frame 21) ≠ 1 then s
  else if ¬(frame 38 = 192 ∧ frame 39 = 168 ∧ frame 40 = 65 ∧ frame 41 = 1) then s
  else inject_arp_reply s n frame

/-- Ethernet plus IPv4 header bytes of an injected TCP response (the part
built before the IP checksum is patched). -/
def tcpEthIpBytes (v : VTcpState) (data_len : Nat) : List Nat :=
  let ip_len := 20 + 20 + data_len
  [v.remote_mac 0, v.remote_mac 1, v.remote_mac 2,
   v.remote_mac 3, v.remote_mac 4, v.remote_mac 5]
  ++ [0x02, 0x00, 0xDE, 0xAD, 0xBE, 0x01]
  ++ [0x08, 0x00]
  ++ [0x45, 0x00, (ip_len >>> 8) &&& 0xFF, ip_len &&& 0xFF,
      0x00, 0x01, 0x00, 0x00, 64, 6, 0x00, 0x00]
  ++ [v.local_ip 0, v.local_ip 1, v.local_ip 2, v.local_ip 3]
  ++ [v.remote_ip 0, v.remote_ip 1, v.remote_ip 2, v.remote_ip 3]

/-- TCP header bytes of an injected TCP response (checksum still zero). -/
def tcpHeaderBytes (v : VTcpState) (flags : Nat) : List Nat :=
  [(v.local_port >>> 8) &&& 0xFF, v.local_port &&& 0xFF,
   (v.remote_port >>> 8) &&& 0xFF, v.remote_port &&& 0xFF,
   (v.our_seq >>> 24) &&& 0xFF, (v.our_seq >>> 16) &&& 0xFF,
   (v.our_seq >>> 8) &&& 0xFF, v.our_seq &&& 0xFF,
   (v.their_seq >>> 24) &&& 0xFF, (v.their_seq >>> 16) &&& 0xFF,
   (v.their_seq >>> 8) &&& 0xFF, v.their_seq &&& 0xFF,
   0x50, flags, 0x20, 0x00, 0x00, 0x00, 0x00, 0x00]

/-- Buffer contents after the Ethernet and IP headers of an injected TCP
response are written at rx_tail + 2. -/
def tcpStage1 (buf : Nat → Nat) (t : Nat) (v : VTcpState) (dl : Nat) : Nat → Nat :=
  wrList buf (t + 2) (tcpEthIpBytes v dl)

/-- Buffer contents after the IP checksum patch at offsets t+26 and t+27. -/
def tcpStage2 (buf : Nat → Nat) (t : Nat) (v : VTcpState) (dl : Nat) : Nat → Nat :=
  let f1 := tcpStage1 buf t v dl
  let c1 := ip_checksum (fun k => f1 (t + 16 + k)) 20
  upd (upd f1 (t + 26) (c1 >>> 8)) (t + 27) (c1 &&& 0xFF)

/-- Buffer contents after the TCP header is written at rx_tail + 36. -/
def tcpStage3 (buf : Nat → Nat) (t : Nat) (v : VTcpState) (flags dl : Nat) : Nat → Nat :=
  wrList (tcpStage2 buf t v dl) (t + 36) (tcpHeaderBytes v flags)

/-- Buffer contents after the payload is copied at rx_tail + 56. -/
def tcpStage4 (buf : Nat → Nat) (t : Nat) (v : VTcpState) (flags : Nat)
    (data : Nat → Nat) (dl : Nat) : Nat → Nat :=
  wrCpy (tcpStage3 buf t v flags dl) (t + 56) data 0 dl

/-- Buffer contents after the TCP checksum patch at offsets t+52, t+53. -/
def tcpStage5 (buf : Nat → Nat) (t : Nat) (v : VTcpState) (flags : Nat)
    (data : Nat → Nat) (dl : Nat) : Nat → Nat :=
  let f4 := tcpStage4 buf t v flags data dl
  let c2 := tcp_checksum (fun k => f4 (t + 16 + k)) (fun k => f4 (t + 36 + k)) (20 + dl)
  upd (upd f4 (t + 52) (c2 >>> 8)) (t + 53) (c2 &&& 0xFF)

/-- Buffer contents after the W5100 length prefix patch at rx_tail. -/
def tcpStage6 (buf : Nat → Nat) (t : Nat) (v : VTcpState) (flags : Nat)
    (data : Nat → Nat) (dl : Nat) : Nat → Nat :=
  let pkt_len := 56 + dl
  upd (upd (tcpStage5 buf t v flags data dl) t ((pkt_len >>> 8) &&& 0xFF))
    (t + 1) (pkt_len &&& 0xFF)

/-- inject_tcp_response: append one synthesized TCP packet at the current
rx_tail of the RX staging buffer (2-byte prefix, Ethernet, IP with patched
checksum, TCP with patched checksum, payload), then advance rx_tail; the
head index is not touched.  No capacity check is performed. -/
def inject_tcp_response (s : CardState) (n : Nat) (flags : Nat)
    (data : Nat → Nat) (data_len : Nat) : CardState :=
  let v := s.vtcp
  updSock s n fun u =>
    { u with rx_buf := tcpStage6 u.rx_buf u.rx_tail v flags data data_len,
             rx_tail := (u.rx_tail + 56 + data_len) % 0x10000 }

/-- Host-side outcomes for one socket_poll pass: poll readiness flags,
SO_ERROR after a connect, the recv result (negative for an error, 0 for a
peer close, positive for data), and the accepted descriptor if any. -/
structure PollEnv where
  pollout : Bool
  soError : Int
  pollinData : Bool
  recvLen : Int
  recvData : Nat → Nat
  pollinListen : Bool
  acceptFd : Int

/-- Host-side outcomes for one virtual_tcp_poll pass. -/
structure VPollEnv where
  pollin : Bool
  recvLen : Int
  recvData : Nat → Nat

/-- Host-side outcomes used by handle_tcp_packet: the descriptor returned
by socket(), whether connect() failed other than with EINPROGRESS, the
SO_ERROR value after the bounded connect poll, the send() result, and the
successive recv outcomes of the bounded drain loop (the loop stops when
poll reports nothing, modelled by the end of the list). -/
structure TcpEnv where
  sockFd : Int
  connectFail : Bool
  soError : Int
  sendRet : Int
  recvRounds : List (Int × (Nat → Nat))

/-- Host-side outcomes used by socket_command. -/
structure CmdEnv where
  openFd : Int
  bindOk : Bool
  listenOk : Bool
  connectRet0 : Bool
  connectInProgress : Bool
  sendRet : Int
  tcp : TcpEnv

/-- Advance vtcp.our_seq by k with 32-bit wraparound. -/
def bump_our_seq (s : CardState) (k : Nat) : CardState :=
  { s with vtcp := { s.vtcp with our_seq := (s.vtcp.our_seq + k) % 0x100000000 } }

/-- Drain loop of handle_tcp_packet after forwarding guest payload:
while poll reports readable data, recv up to 1400 bytes and inject it as
PSH+ACK; a zero-length recv injects FIN+ACK once and stops. -/
def tcp_drain : List (Int × (Nat → Nat)) → CardState → Nat → CardState
  | [], s, _ => s
  | (len, dat) :: rest, s, n =>
    let got := if len < 0 then len else min len 1400
    if 0 < got then
      tcp_drain rest (bump_our_seq (inject_tcp_response s n 0x18 dat got.toNat) got.toNat) n
    else if got = 0 then
      let si := inject_tcp_response s n 0x11 (fun _ => 0) 0
      bump_our_seq { si with vtcp := { si.vtcp with fin_sent := true } } 1
    else s

/-- handle_tcp_packet: terminate a guest TCP segment addressed to the
virtual network and translate it onto the single host connection. -/
def handle_tcp_packet (env : TcpEnv) (s : CardState) (n : Nat)
    (frame : Nat → Nat) (len : Nat) : CardState :=
  if len < 14 + 20 + 20 then s
  else
    let src_port := (frame 34 <<< 8) ||| frame 35
    let dst_port := (frame 36 <<< 8) ||| frame 37
    let flags := frame 47
    let tcp_header_len := ((frame 46 >>> 4) &&& 0x0F) * 4
    let ip_total_len := (frame 16 <<< 8) ||| frame 17
    let tcp_data_len : Int := (ip_total_len : Int) - 20 - tcp_header_len
    let their_seq := (frame 38 <<< 24) ||| (frame 39 <<< 16) ||| (frame 40 <<< 8) ||| frame 41
    if flags &&& 0x02 ≠ 0 ∧ flags &&& 0x10 = 0 then
      -- SYN without ACK: open a host connection to 127.0.0.1:dst_port
      let s0 := if 0 ≤ s.vtcp.fd
                then { s with closed_log := s.closed_log ++ [s.vtcp.fd] } else s
      let s1 := { s0 with vtcp := { s0.vtcp with fd := env.sockFd } }
      if env.sockFd < 0 then
        inject_tcp_response s1 n 0x14 (fun _ => 0) 0
      else if env.connectFail then
        let v2 := { s1.vtcp with fd := (-1 : Int) }
        let s2 := { s1 with closed_log := s1.closed_log ++ [env.sockFd], vtcp := v2 }
        inject_tcp_response s2 n 0x14 (fun _ => 0) 0
      else if env.soError ≠ 0 then
        let v2 := { s1.vtcp with fd := (-1 : Int) }
        let s2 := { s1 with closed_log := s1.closed_log ++ [env.sockFd], vtcp := v2 }
        inject_tcp_response s2 n 0x14 (fun _ => 0) 0
      else
        let v2 : VTcpState :=
          { fd := env.sockFd
            remote_mac := fun k => frame (6 + k)
            remote_ip := fun k => frame (26 + k)
            local_ip := fun k => frame (30 + k)
            remote_port := src_port
            local_port := dst_port
            our_seq := 12345
            their_seq := (their_seq + 1) % 0x100000000
            established := false
            fin_sent := false
            fin_received := false }
        let s2 := { s1 with vtcp := v2 }
        bump_our_seq (inject_tcp_response s2 n 0x12 (fun _ => 0) 0) 1
    else
      let sA :=
        if flags &&& 0x10 ≠ 0 then
          let sE := if ¬ s.vtcp.established ∧ flags &&& 0x02 = 0 then
              { s with vtcp := { s.vtcp with established := true } } else s
          if 0 < tcp_data_len then
            -- payload is forwarded with send() (host effect only), then acked
            let vD := { sE.vtcp with their_seq := (their_seq + tcp_data_len.toNat) % 0x100000000 }
            let sD := { sE with vtcp := vD }
            let sAck := inject_tcp_response sD n 0x10 (fun _ => 0) 0
            if 0 ≤ sAck.vtcp.fd then tcp_drain env.recvRounds sAck n else sAck
          else sE
        else s
      if flags &&& 0x01 ≠ 0 then
        let vF := { sA.vtcp with fin_received := true, their_seq := (sA.vtcp.their_seq + 1) % 0x100000000 }
        let sF := { sA with vtcp := vF }
        let sF2 := inject_tcp_response sF n 0x10 (fun _ => 0) 0
        let sF3 := if ¬ sF2.vtcp.fin_sent then
            let si := inject_tcp_response sF2 n 0x11 (fun _ => 0) 0
            bump_our_seq { si with vtcp := { si.vtcp with fin_sent := true } } 1
          else sF2
        let sF4 := if 0 ≤ sF3.vtcp.fd then
            let vC := { sF3.vtcp with fd := (-1 : Int) }
            { sF3 with closed_log := sF3.closed_log ++ [sF3.vtcp.fd], vtcp := vC }
          else sF3
        { sF4 with vtcp := { sF4.vtcp with established := false } }
      else sA

/-- View of the frame gathered from the circular TX buffer of socket n:
frame[i] = memory[tx_base + ((tx_rd - tx_base + i) & (SOCK_BUF_SIZE-1))]. -/
def txFrame (s : CardState) (n : Nat) : Nat → Nat :=
  let base := 0x0400 + n * 0x100
  let tx_rd := wordOf (s.memory (base + 0x23)) (s.memory (base + 0x22))
  let tx_base := 0x4000 + n * 0x800
  fun i => s.memory (tx_base + cdiff (tx_rd + i) tx_base 0x800)

/-- handle_macraw_send: read the frame between the TX pointers, advance
Sn_TX_RD, then dispatch to the virtual DHCP, ARP or TCP service.  A frame
length of 0 or above 1600 aborts before any of that. -/
def handle_macraw_send (env : TcpEnv) (s : CardState) (n : Nat) : CardState :=
  let base := 0x0400 + n * 0x100
  let tx_rd := wordOf (s.memory (base + 0x23)) (s.memory (base + 0x22))
  let tx_wr := wordOf (s.memory (base + 0x25)) (s.memory (base + 0x24))
  let frame_len := cdiff tx_wr tx_rd 0x800
  if frame_len = 0 ∨ 1600 < frame_len then s
  else
    let frame := txFrame s n
    let mAdv := upd (upd s.memory (base + 0x22) (HIB tx_wr)) (base + 0x23) (LOB tx_wr)
    let s1 := { s with memory := mAdv }
    let t := detect_dhcp_type frame frame_len
    if 0 < t then
      -- xid is at DHCP offset 4 (frame 46), chaddr at offset 28 (frame 70)
      let s2 := { s1 with dhcp_xid := fun k => frame (46 + k), client_mac := fun k => frame (70 + k) }
      if t = 1 then
        let s3 := { s2 with dhcp_state := .discoverSeen }
        let s4 := inject_dhcp_response s3 n false
        { s4 with dhcp_state := .offerSent }
      else if t = 3 then
        let s3 := { s2 with dhcp_state := .requestSeen }
        let s4 := inject_dhcp_response s3 n true
        let s5 := { s4 with dhcp_state := .complete }
        let mIp := wrList (wrList (wrList s5.memory 0x0F [192, 168, 65, 100])
                    0x01 [192, 168, 65, 1]) 0x05 [255, 255, 255, 0]
        { s5 with memory := mIp }
      else s2
    else
      if 14 ≤ frame_len then
        let ethertype := (frame 12 <<< 8) ||| frame 13
        if ethertype = 0x0806 then handle_arp_packet s1 n frame frame_len
        else if ethertype = 0x0800 ∧ 14 + 20 ≤ frame_len then
          if frame 23 = 6 ∧ frame 30 = 192 ∧ frame 31 = 168
             ∧ (frame 32 = 64 ∨ frame 32 = 65)
          then handle_tcp_packet env s1 n frame frame_len
          else s1
        else s1
      else s1

/-- Connect-completion part of socket_poll: when a non-blocking connect
is pending and the descriptor polls writable, SO_ERROR decides between
ESTABLISHED and CLOSED, and the connecting flag is cleared. -/
def sp_connect (pe : PollEnv) (s : CardState) (n : Nat) : CardState :=
  let base := 0x0400 + n * 0x100
  if (s.sockets n).connecting then
    if pe.pollout then
      let sW := if pe.soError = 0
                then { s with memory := upd s.memory (base + 0x03) 0x17 }
                else { s with memory := upd s.memory (base + 0x03) 0x00 }
      updSock sW n fun t => { t with connecting := false }
    else s
  else s

/-- Established-data part of socket_poll: when the socket is ESTABLISHED
and readable, recv into the staging buffer (bounded by the free space and
the wrap point); a zero recv moves the status to CLOSE_WAIT. -/
def sp_data (pe : PollEnv) (s : CardState) (n : Nat) : CardState :=
  let base := 0x0400 + n * 0x100
  if s.memory (base + 0x03) = 0x17 ∧ pe.pollinData then
    let t := s.sockets n
    let space := 4096 - cdiff t.rx_tail t.rx_head 0x1000
    if 0 < space then
      let write_pos := t.rx_tail % 4096
      let can_read := min (4096 - write_pos) space
      let got := if pe.recvLen < 0 then pe.recvLen else min pe.recvLen (can_read : Int)
      if 0 < got then
        updSock s n fun u =>
          let buf' := wrCpy u.rx_buf write_pos pe.recvData 0 got.toNat
          { u with rx_buf := buf', rx_tail := (u.rx_tail + got.toNat) % 0x1000 }
      else if got = 0 then
        { s with memory := upd s.memory (base + 0x03) 0x1C }
      else s
    else s
  else s

/-- Listen part of socket_poll: when the socket is LISTEN and readable,
accept; the listening descriptor is closed and replaced. -/
def sp_listen (pe : PollEnv) (s : CardState) (n : Nat) : CardState :=
  let base := 0x0400 + n * 0x100
  if s.memory (base + 0x03) = 0x14 ∧ pe.pollinListen then
    if 0 ≤ pe.acceptFd then
      let old := (s.sockets n).fd
      let s3 := { s with closed_log := s.closed_log ++ [old] }
      let s4 := updSock s3 n fun t => { t with fd := pe.acceptFd }
      { s4 with memory := upd s4.memory (base + 0x03) 0x17 }
    else s
  else s

/-- socket_poll: per-socket non-blocking poll pass run on each socket
register read; completes pending connects, drains readable data into the
RX staging buffer, and accepts pending connections. -/
def socket_poll (pe : PollEnv) (s : CardState) (n : Nat) : CardState :=
  if (s.sockets n).fd < 0 then s
  else sp_listen pe (sp_data pe (sp_connect pe s n) n) n

/-- virtual_tcp_poll: poll the translated host connection for unsolicited
data and inject it as PSH+ACK; a zero recv closes the host descriptor
after injecting FIN+ACK once. -/
def virtual_tcp_poll (ve : VPollEnv) (s : CardState) (n : Nat) : CardState :=
  if s.vtcp.fd < 0 ∨ ¬ s.vtcp.established then s
  else if ve.pollin then
    let got := if ve.recvLen < 0 then ve.recvLen else min ve.recvLen 1400
    if 0 < got then
      bump_our_seq (inject_tcp_response s n 0x18 ve.recvData got.toNat) got.toNat
    else if got = 0 then
      let s1 := if ¬ s.vtcp.fin_sent then
          let si := inject_tcp_response s n 0x11 (fun _ => 0) 0
          bump_our_seq { si with vtcp := { si.vtcp with fin_sent := true } } 1
        else s
      let v1 := { s1.vtcp with fd := (-1 : Int) }
      { s1 with closed_log := s1.closed_log ++ [s1.vtcp.fd], vtcp := v1 }
    else s
  else s

/-- The file descriptors w5100_reset passes to close(): one per socket
whose descriptor is above 2, provided the card was initialized. -/
def resetClosedFds (s : CardState) : List Int :=
  (List.range 4).filterMap fun i =>
    if s.initialized ∧ 2 < (s.sockets i).fd then some ((s.sockets i).fd) else none

/-- Socket state after memset plus the per-socket loop of w5100_reset. -/
def defaultSocket : SocketState :=
  { fd := -1, connecting := false, rx_buf := fun _ => 0,
    rx_head := 0, rx_tail := 0, macraw_mode := false }

/-- Per-socket register defaults written by the reset loop for socket i. -/
def initSocketRegs (m : Nat → Nat) (i : Nat) : Nat → Nat :=
  let base := 0x0400 + i * 0x100
  let tx_base := 0x4000 + i * 0x800
  let rx_base := 0x6000 + i * 0x800
  let m := upd m (base + 0x03) 0x00                 -- Sn_SR = CLOSED
  let m := upd m (base + 0x16) 128                  -- Sn_TTL
  let m := upd m (base + 0x22) (HIB tx_base)        -- Sn_TX_RD
  let m := upd m (base + 0x23) (LOB tx_base)
  let m := upd m (base + 0x24) (HIB tx_base)        -- Sn_TX_WR
  let m := upd m (base + 0x25) (LOB tx_base)
  let m := upd m (base + 0x20) (HIB 0x800)          -- Sn_TX_FSR
  let m := upd m (base + 0x21) (LOB 0x800)
  let m := upd m (base + 0x28) (HIB rx_base)        -- Sn_RX_RD
  let m := upd m (base + 0x29) (LOB rx_base)
  let m := upd m (base + 0x26) 0                    -- Sn_RX_RSR
  let m := upd m (base + 0x27) 0
  m

/-- w5100_reset: close open per-socket descriptors, zero the whole u2
state, and re-seed the register defaults.  The virtual_tcp singleton is
not part of struct u2 and is left untouched. -/
def w5100_reset (s : CardState) : CardState :=
  let log := s.closed_log ++ resetClosedFds s
  let m0 : Nat → Nat := fun _ => 0
  let m1 := wrList m0 0x09 [0x02, 0x00, 0xDE, 0xAD, 0xBE, 0xEF]   -- SHAR
  let m2 := wrList m1 0x0F [192, 168, 1, 100]                     -- SIPR
  let m3 := wrList m2 0x01 [192, 168, 1, 1]                       -- GAR
  let m4 := wrList m3 0x05 [255, 255, 255, 0]                     -- SUBR
  let m5 := wrList m4 0x17 [0x07, 0xD0]                           -- RTR
  let m6 := upd m5 0x19 0x08                                      -- RCR
  let m7 := upd m6 0x1A 0x55                                      -- RMSR
  let m8 := upd m7 0x1B 0x55                                      -- TMSR
  let m9 := upd m8 0x28 0x00                                      -- PPTLR
  let mA := initSocketRegs (initSocketRegs (initSocketRegs (initSocketRegs m9 0) 1) 2) 3
  { memory := mA
    addr_ptr := 0
    mode := 0
    sockets := fun _ => defaultSocket
    initialized := true
    dhcp_state := .idle
    dhcp_xid := fun _ => 0
    client_mac := fun _ => 0
    vtcp := s.vtcp
    closed_log := log }

/-- socket_command: dispatch one value written to Sn_CR; the command
register reads back 0 afterwards. -/
def socket_command (env : CmdEnv) (s : CardState) (n : Nat) (cmd : Nat) : CardState :=
  let base := 0x0400 + n * 0x100
  let ss := s.sockets n
  let mode := s.memory (base + 0x00)
  let s' :=
    if cmd = 0x01 then        -- OPEN
      if mode = 0x01 then
        let s1 := updSock s n fun t => { t with fd := env.openFd }
        if 0 ≤ env.openFd
        then { s1 with memory := upd s1.memory (base + 0x03) 0x13 }
        else s1
      else if mode = 0x02 then
        let s1 := updSock s n fun t => { t with fd := env.openFd }
        if 0 ≤ env.openFd
        then { s1 with memory := upd s1.memory (base + 0x03) 0x22 }
        else s1
      else if mode &&& 0x0F = 0x04 ∧ n = 0 then
        let rx_base := 0x6000 + n * 0x800
        let s1 := updSock s n fun t =>
          { t with fd := -1, macraw_mode := true, rx_head := 0, rx_tail := 0 }
        let m1 := upd (upd (upd s1.memory (base + 0x28) (HIB rx_base))
                   (base + 0x29) (LOB rx_base)) (base + 0x03) 0x42
        { s1 with memory := m1 }
      else s
    else if cmd = 0x02 then   -- LISTEN
      if 0 ≤ ss.fd ∧ s.memory (base + 0x03) = 0x13 then
        if env.bindOk ∧ env.listenOk
        then { s with memory := upd s.memory (base + 0x03) 0x14 }
        else s
      else s
    else if cmd = 0x04 then   -- CONNECT
      if 0 ≤ ss.fd ∧ s.memory (base + 0x03) = 0x13 then
        -- destination 192.168.64.x and 192.168.65.x are redirected to
        -- 127.0.0.1; only the connect outcome is visible in the state
        if env.connectRet0 then
          { s with memory := upd s.memory (base + 0x03) 0x17 }
        else if env.connectInProgress then
          let s1 := updSock s n fun t => { t with connecting := true }
          { s1 with memory := upd s1.memory (base + 0x03) 0x15 }
        else
          { s with memory := upd s.memory (base + 0x03) 0x00 }
      else s
    else if cmd = 0x08 ∨ cmd = 0x10 then  -- DISCON, CLOSE
      let s1 := if 0 ≤ ss.fd
                then { s with closed_log := s.closed_log ++ [ss.fd] } else s
      let s2 := updSock s1 n fun t =>
        { t with fd := -1, connecting := false, macraw_mode := false, rx_head := 0, rx_tail := 0 }
      { s2 with memory := upd s2.memory (base + 0x03) 0x00 }
    else if cmd = 0x20 then   -- SEND
      if s.memory (base + 0x03) = 0x42 ∧ ss.macraw_mode then
        handle_macraw_send env.tcp s n
      else if 0 ≤ ss.fd ∧ s.memory (base + 0x03) = 0x17 then
        let tx_rd := wordOf (s.memory (base + 0x23)) (s.memory (base + 0x22))
        let tx_wr := wordOf (s.memory (base + 0x25)) (s.memory (base + 0x24))
        let send_size := cdiff tx_wr tx_rd 0x800
        if 0 < send_size then
          if 0 < env.sendRet then
            let sent := min env.sendRet.toNat send_size
            let tx_rd' := (tx_rd + sent) % 0x10000
            let m1 := upd (upd s.memory (base + 0x22) (HIB tx_rd')) (base + 0x23) (LOB tx_rd')
            { s with memory := m1 }
          else s
        else s
      else s
    else if cmd = 0x40 then   -- RECV
      if 0 ≤ ss.fd ∨ ss.macraw_mode then
        let rx_rd := wordOf (s.memory (base + 0x29)) (s.memory (base + 0x28))
        let rx_base := 0x6000 + n * 0x800
        let claimed := cdiff rx_rd rx_base 0x800
        if ss.macraw_mode then
          let consumed := cdiff claimed ss.rx_head 0x800
          if 0 < consumed then
            let s1 := updSock s n fun t =>
              { t with rx_head := (t.rx_head + consumed) % 0x10000 }
            if (s1.sockets n).rx_tail ≤ (s1.sockets n).rx_head then
              let s2 := updSock s1 n fun t => { t with rx_head := 0, rx_tail := 0 }
              let m1 := upd (upd s2.memory (base + 0x28) (HIB rx_base)) (base + 0x29) (LOB rx_base)
              { s2 with memory := m1 }
            else s1
          else s
        else
          if claimed ≠ ss.rx_head
          then updSock s n fun t => { t with rx_head := claimed }
          else s
      else s
    else s
  { s' with memory := upd s'.memory (base + 0x01) 0 }

/-- Poll environments bundled for a w5100_read call. -/
structure ReadEnv where
  pe : PollEnv
  ve : VPollEnv

/-- w5100_read: reads above 0x7FFF return zero; reads of socket registers
first run the per-socket poll pass (and the virtual TCP poll in MAC-raw
mode); Sn_TX_FSR and Sn_RX_RSR are computed live; RX-area reads are served
from the local staging buffer; everything else comes from the memory image. -/
def w5100_read (re : ReadEnv) (s : CardState) (addr : Nat) : Nat × CardState :=
  if 0x8000 ≤ addr then (0, s)
  else
    let inSock := 0x0400 ≤ addr ∧ addr < 0x4000 ∧ (addr - 0x0400) / 0x100 < 4
    let n := (addr - 0x0400) / 0x100
    let off := (addr - 0x0400) % 0x100
    let s1 := if inSock then
        let sP := socket_poll re.pe s n
        if (sP.sockets n).macraw_mode then virtual_tcp_poll re.ve sP n else sP
      else s
    if hFsr : inSock ∧ (off = 0x20 ∨ off = 0x21) then
      let base := 0x0400 + n * 0x100
      let tx_rd := wordOf (s1.memory (base + 0x23)) (s1.memory (base + 0x22))
      let tx_wr := wordOf (s1.memory (base + 0x25)) (s1.memory (base + 0x24))
      let fsr := 0x800 - cdiff tx_wr tx_rd 0x800
      (if off = 0x20 then HIB fsr else LOB fsr, s1)
    else if hRsr : inSock ∧ (off = 0x26 ∨ off = 0x27) then
      let t := s1.sockets n
      let rsr := cdiff t.rx_tail t.rx_head 0x1000
      (if off = 0x26 then HIB rsr else LOB rsr, s1)
    else if 0x6000 ≤ addr ∧ addr < 0x8000 then
      let rn := (addr - 0x6000) / 0x800
      if rn < 4 then
        let buf_off := (addr - (0x6000 + rn * 0x800)) % 0x800
        if buf_off < 4096 then ((s1.sockets rn).rx_buf buf_off, s1)
        else (s1.memory addr, s1)
      else (s1.memory addr, s1)
    else (s1.memory addr, s1)

/-- w5100_write: writes above 0x7FFF are dropped; a mode-register write
with the reset bit triggers w5100_reset; Sn_CR writes dispatch commands;
everything else is stored in the memory image. -/
def w5100_write (env : CmdEnv) (s : CardState) (addr v : Nat) : CardState :=
  if 0x8000 ≤ addr then s
  else if addr = 0 then
    if v &&& 0x80 ≠ 0 then w5100_reset s
    else { s with memory := upd s.memory addr v }
  else
    let inSock := 0x0400 ≤ addr ∧ addr < 0x4000
    let n := (addr - 0x0400) / 0x100
    let off := (addr - 0x0400) % 0x100
    if inSock ∧ n < 4 ∧ off = 0x01 then socket_command env s n v
    else { s with memory := upd s.memory addr v }

/-- Host environment for one slot access. -/
structure HostEnv where
  pe : PollEnv
  ve : VPollEnv
  ce : CmdEnv

/-- handler: the slot I/O hook.  psw = -1 with ploc ≥ 0 serves the slot
ROM identification bytes; psw 4..7 are the four soft switches (mode,
address high, address low, data with optional auto-increment); a val of
-1 marks a read.  All other psw values fall through and return 0. -/
def handler (env : HostEnv) (s : CardState) (loc v ploc psw : Int) : Nat × CardState :=
  if psw = -1 then
    (if 0 ≤ ploc then
       if ploc = 0x00 then 0x00
       else if ploc = 0x01 then 0x00
       else if ploc = 0x05 then 0x38
       else if ploc = 0x07 then 0x18
       else if ploc = 0xFF then 0x00
       else 0x00
     else 0, s)
  else if psw = 4 then
    if v = -1 then (s.mode, s)
    else
      let vb := v.toNat % 256
      if vb &&& 0x80 ≠ 0 then (0, { w5100_reset s with mode := vb &&& 0x7F })
      else (0, { s with mode := vb })
  else if psw = 5 then
    if v = -1 then (HIB s.addr_ptr, s)
    else (0, { s with addr_ptr := wordOf (LOB s.addr_ptr) (v.toNat % 256) % 0x10000 })
  else if psw = 6 then
    if v = -1 then (LOB s.addr_ptr, s)
    else (0, { s with addr_ptr := wordOf (v.toNat % 256) (HIB s.addr_ptr) % 0x10000 })
  else if psw = 7 then
    let rs := if v = -1 then w5100_read ⟨env.pe, env.ve⟩ s s.addr_ptr
              else (0, w5100_write env.ce s s.addr_ptr (v.toNat % 256))
    if rs.2.mode &&& 0x02 ≠ 0
    then (rs.1, { rs.2 with addr_ptr := (rs.2.addr_ptr + 1) % 0x10000 })
    else rs
  else (0, s)

/-! Concrete fixtures used by witnesses and counterexamples. -/

/-- Quiescent poll environment: no host readiness anywhere. -/
def pe0 : PollEnv :=
  { pollout := false, soError := 0, pollinData := false, recvLen := 0,
    recvData := fun _ => 0, pollinListen := false, acceptFd := -1 }

/-- Quiescent virtual-TCP poll environment. -/
def ve0 : VPollEnv := { pollin := false, recvLen := 0, recvData := fun _ => 0 }

/-- TCP environment with no host activity. -/
def tcpEnv0 : TcpEnv :=
  { sockFd := -1, connectFail := false, soError := 0, sendRet := 0, recvRounds := [] }

/-- Command environment with no host activity. -/
def cmdEnv0 : CmdEnv :=
  { openFd := -1, bindOk := false, listenOk := false, connectRet0 := false,
    connectInProgress := false, sendRet := 0, tcp := tcpEnv0 }

/-- Quiescent host environment. -/
def hostEnv0 : HostEnv := { pe := pe0, ve := ve0, ce := cmdEnv0 }

/-- Virtual TCP endpoint with no connection. -/
def vtcp0 : VTcpState :=
  { fd := -1, remote_mac := fun _ => 0, remote_ip := fun _ => 0,
    local_ip := fun _ => 0, remote_port := 0, local_port := 0,
    our_seq := 0, their_seq := 0, established := false,
    fin_sent := false, fin_received := false }

/-- A blank card state. -/
def state0 : CardState :=
  { memory := fun _ => 0, addr_ptr := 0, mode := 0,
    sockets := fun _ => defaultSocket, initialized := false,
    dhcp_state := .idle, dhcp_xid := fun _ => 0, client_mac := fun _ => 0,
    vtcp := vtcp0, closed_log := [] }

/-- Initialized card whose virtual TCP endpoint still holds host fd 7
(as after a translated connection was opened): fixture for claim C1. -/
def stateC1 : CardState :=
  { state0 with initialized := true, vtcp := { vtcp0 with fd := 7 } }

/-- Card state with queued RX data on socket 0 (head 10, tail 50, buffer
filled with 7): fixture for claim C3. -/
def stateC3 : CardState :=
  { state0 with sockets := fun m =>
      if m = 0
      then { defaultSocket with rx_buf := fun _ => 7, rx_head := 10, rx_tail := 50 }
      else defaultSocket }

/-- An all-zero frame. -/
def frame0 : Nat → Nat := fun _ => 0

/-- Card state with socket 0 in MAC-raw mode and an established virtual
TCP translation on host fd 5: fixture for claim C4. -/
def stateEstC4 : CardState :=
  let socks : Nat → SocketState := fun m =>
    if m = 0 then { defaultSocket with macraw_mode := true } else defaultSocket
  let vt := { vtcp0 with fd := (5 : Int), established := true, our_seq := 12346, their_seq := 1001 }
  { state0 with sockets := socks, vtcp := vt }

/-- Guest ACK segment carrying one payload byte (IP total length 41,
TCP data offset 5, flags ACK): fixture frame for claim C4. -/
def dataFrameC4 : Nat → Nat := fun i =>
  if i = 17 then 41 else if i = 46 then 0x50 else if i = 47 then 0x10 else 0

/-- Host answers the forwarded byte with two 1400-byte bursts: fixture
environment for claim C4. -/
def envC4 : TcpEnv :=
  { tcpEnv0 with recvRounds := [(1400, fun _ => 65), (1400, fun _ => 66)] }

/-- Card state after the guest data segment of claim C4 is translated:
one ACK and two PSH+ACK frames are injected into the RX buffer. -/
def stateC4 : CardState := handle_tcp_packet envC4 stateEstC4 0 dataFrameC4 55

/-- stateC4 with the address pointer on the RSR high byte. -/
def stateC4hi : CardState := { stateC4 with addr_ptr := 0x0426 }

/-- stateC4 with the address pointer on the RSR low byte. -/
def stateC4lo : CardState := { stateC4 with addr_ptr := 0x0427 }

/-- A valid 42-byte ARP request for the virtual gateway, as laid out in a
TX buffer: sender 02:00:DE:AD:BE:EF / 192.168.65.100, target protocol
address 192.168.65.1. -/
def arpReqFrame : List Nat :=
  [0, 0, 0, 0, 0, 0,
   0x02, 0x00, 0xDE, 0xAD, 0xBE, 0xEF,
   0x08, 0x06,
   0x00, 0x01, 0x08, 0x00, 6, 4, 0x00, 0x01,
   0x02, 0x00, 0xDE, 0xAD, 0xBE, 0xEF,
   192, 168, 65, 100,
   0, 0, 0, 0, 0, 0,
   192, 168, 65, 1]

/-- Card state whose socket 0 TX ring holds arpReqFrame between
TX_RD = 0x4000 and TX_WR = 0x402A: fixture for claim C5. -/
def stateC5 : CardState :=
  let mem := wrList (wrList (wrList (fun _ => 0) 0x0422 [0x40, 0x00])
    0x0424 [0x40, 0x2A]) 0x4000 arpReqFrame
  { state0 with memory := mem }

/-- A minimal frame that detect_dhcp_type classifies as a DHCPREQUEST:
EtherType 0x0800, protocol 17, UDP 68 to 67, magic cookie, then option
53 with value 3; fixture for claim C6. -/
def dhcpReqFrame : Nat → Nat := fun i =>
  if i = 12 then 0x08
  else if i = 23 then 17
  else if i = 35 then 68
  else if i = 37 then 67
  else if i = 278 then 99
  else if i = 279 then 130
  else if i = 280 then 83
  else if i = 281 then 99
  else if i = 282 then 53
  else if i = 283 then 1
  else if i = 284 then 3
  else 0

/-- Card state whose socket 0 TX ring holds a 300-byte window starting at
TX_RD = 0x4000 with TX_WR = 0x412C, the bytes being dhcpReqFrame:
fixture for claim C6.  The TX region 0x4000..0x412B maps to frame
indices 0..299 directly. -/
def stateC6 : CardState :=
  { state0 with memory := fun a =>
      if 0x0400 ≤ a ∧ a < 0x0800 then
        (wrList (wrList (fun _ => 0) 0x0422 [0x40, 0x00]) 0x0424 [0x41, 0x2C]) a
      else if 0x4000 ≤ a ∧ a < 0x4800 then dhcpReqFrame (a - 0x4000)
      else 0 }

/-- Card state with a full-looking RX buffer (tail 4000) on socket 0:
fixture for claim C8. -/
def stateC8 : CardState :=
  { state0 with sockets := fun m =>
      if m = 0 then { defaultSocket with rx_tail := 4000 } else defaultSocket }

/-- A payload byte source for claim C8. -/
def dataC8 : Nat → Nat := fun _ => 9

/-- Card state after reset with socket 0 switched to MAC-raw status and
TX pointers equal (frame length 0): fixture for claim C9. -/
def stateC9 : CardState :=
  let r := w5100_reset state0
  { r with
    memory := upd r.memory 0x0403 0x42,
    sockets := fun m => if m = 0 then { defaultSocket with macraw_mode := true }
                        else defaultSocket }

/-- Post-reset card with the address pointer on the socket 0 TX free
size register: fixture for claim C2. -/
def stateC2 : CardState := { w5100_reset state0 with addr_ptr := 0x0420 }

/-- stateC9 with the address pointer on the socket 0 RX received size
register: fixture for the C4 witness. -/
def stateC4w : CardState := { stateC9 with addr_ptr := 0x0426 }

/-! Helper lemmas about the byte-array primitives. -/

theorem upd_self (f : Nat → Nat) (i v : Nat) : upd f i v i = v := by simp [upd]

theorem upd_other (f : Nat → Nat) (i v j : Nat) (h : j ≠ i) : upd f i v j = f j := by
  simp [upd, h]

theorem wrList_lt (l : List Nat) : ∀ (f : Nat → Nat) (i j : Nat), j < i → wrList f i l j = f j := by
  induction l with
  | nil => intro f i j _; rfl
  | cons b bs ih =>
    intro f i j h
    rw [wrList, ih _ _ _ (by omega), upd_other _ _ _ _ (by omega)]

theorem wrList_ge (l : List Nat) :
    ∀ (f : Nat → Nat) (i j : Nat), i + l.length ≤ j → wrList f i l j = f j := by
  induction l with
  | nil => intro f i j _; rfl
  | cons b bs ih =>
    intro f i j h
    simp only [List.length_cons] at h
    rw [wrList, ih _ _ _ (by omega), upd_other _ _ _ _ (by omega)]

theorem wrList_getD (l : List Nat) :
    ∀ (f : Nat → Nat) (i j : Nat), i ≤ j → j < i + l.length →
    wrList f i l j = l.getD (j - i) 0 := by
  induction l with
  | nil => intro f i j h1 h2; simp at h2; omega
  | cons b bs ih =>
    intro f i j h1 h2
    rw [wrList]
    by_cases he : j = i
    · subst he
      rw [wrList_lt _ _ _ _ (by omega), upd_self]
      simp
    · simp only [List.length_cons] at h2
      rw [ih _ _ _ (by omega) (by omega)]
      have hd : j - i = (j - (i + 1)) + 1 := by omega
      rw [hd, List.getD_cons_succ]

theorem wrCpy_lt : ∀ (n : Nat) (f : Nat → Nat) (i : Nat) (src : Nat → Nat) (si j : Nat),
    j < i → wrCpy f i src si n j = f j := by
  intro n
  induction n with
  | zero => intro f i src si j _; rfl
  | succ m ih =>
    intro f i src si j h
    rw [wrCpy, ih _ _ _ _ _ (by omega), upd_other _ _ _ _ (by omega)]

theorem wrCpy_ge : ∀ (n : Nat) (f : Nat → Nat) (i : Nat) (src : Nat → Nat) (si j : Nat),
    i + n ≤ j → wrCpy f i src si n j = f j := by
  intro n
  induction n with
  | zero => intro f i src si j _; rfl
  | succ m ih =>
    intro f i src si j h
    rw [wrCpy, ih _ _ _ _ _ (by omega), upd_other _ _ _ _ (by omega)]

theorem wrCpy_at : ∀ (n : Nat) (f : Nat → Nat) (i : Nat) (src : Nat → Nat) (si j : Nat),
    i ≤ j → j < i + n → wrCpy f i src si n j = src (si + (j - i)) := by
  intro n
  induction n with
  | zero => intro f i src si j h1 h2; omega
  | succ m ih =>
    intro f i src si j h1 h2
    rw [wrCpy]
    by_cases he : j = i
    · subst he
      rw [wrCpy_lt _ _ _ _ _ _ (by omega), upd_self]
      simp
    · rw [ih _ _ _ _ _ (by omega) (by omega)]
      have hd : si + 1 + (j - (i + 1)) = si + (j - i) := by omega
      rw [hd]

theorem updSock_sockets_self (s : CardState) (n : Nat) (g : SocketState → SocketState) :
    (updSock s n g).sockets n = g (s.sockets n) := by
  simp [updSock]

theorem updSock_sockets_other (s : CardState) (n m : Nat) (g : SocketState → SocketState)
    (h : m ≠ n) : (updSock s n g).sockets m = s.sockets m := by
  simp [updSock, h]

/-! Helper lemmas about the checksum arithmetic. -/

theorem foldCarry_le (x : Nat) : foldCarry x ≤ 0xFFFF := by
  induction x using foldCarry.induct with
  | case1 x h =>
    rw [foldCarry, dif_pos h]
    have h1 : x >>> 16 = x / 65536 := by simpa using Nat.shiftRight_eq_div_pow x 16
    rw [h1] at h
    omega
  | case2 x h ih =>
    rw [foldCarry, dif_neg h]
    exact ih

theorem foldCarry_mod (x : Nat) : foldCarry x % 65535 = x % 65535 := by
  induction x using foldCarry.induct with
  | case1 x h => rw [foldCarry, dif_pos h]
  | case2 x h ih =>
    rw [foldCarry, dif_neg h]
    have h1 : x >>> 16 = x / 65536 := by simpa using Nat.shiftRight_eq_div_pow x 16
    have h2 : x &&& 0xFFFF = x % 65536 := by
      have hx := Nat.and_pow_two_sub_one_eq_mod x 16
      norm_num at hx
      exact hx
    rw [h1, h2] at ih ⊢
    omega

theorem foldCarry_pos (x : Nat) (h0 : 0 < x) : 0 < foldCarry x := by
  induction x using foldCarry.induct with
  | case1 x h => rw [foldCarry, dif_pos h]; exact h0
  | case2 x h ih =>
    rw [foldCarry, dif_neg h]
    apply ih
    have h1 : x >>> 16 = x / 65536 := by simpa using Nat.shiftRight_eq_div_pow x 16
    have h2 : x &&& 0xFFFF = x % 65536 := by
      have hx := Nat.and_pow_two_sub_one_eq_mod x 16
      norm_num at hx
      exact hx
    rw [h1] at h
    rw [h1, h2]
    omega

theorem foldCarry_le_self (x : Nat) : foldCarry x ≤ x := by
  induction x using foldCarry.induct with
  | case1 x h => rw [foldCarry, dif_pos h]
  | case2 x h ih =>
    rw [foldCarry, dif_neg h]
    refine le_trans ih ?_
    have h1 : x >>> 16 = x / 65536 := by simpa using Nat.shiftRight_eq_div_pow x 16
    have h2 : x &&& 0xFFFF = x % 65536 := by
      have hx := Nat.and_pow_two_sub_one_eq_mod x 16
      norm_num at hx
      exact hx
    rw [h1, h2]
    omega

/-- One's-complement round trip: adding the complement of the folded sum
back into the sum and folding again yields 0xFFFF, so the final inversion
gives zero. -/
theorem oc_roundtrip (S : Nat) :
    0xFFFF - foldCarry (S + (0xFFFF - foldCarry S)) = 0 := by
  have hf1 := foldCarry_le S
  have hf2 := foldCarry_mod S
  have hf3 := foldCarry_le_self S
  have hA : 0 < S + (0xFFFF - foldCarry S) := by omega
  have hg1 := foldCarry_le (S + (0xFFFF - foldCarry S))
  have hg2 := foldCarry_mod (S + (0xFFFF - foldCarry S))
  have hg3 := foldCarry_pos _ hA
  omega

/-- A 16-bit value split into its two bytes and re-joined with shift-or
recomposes exactly. -/
theorem split_or_byte (c : Nat) : ((c >>> 8) <<< 8) ||| (c &&& 0xFF) = c := by
  have h1 : c >>> 8 = c / 256 := by simpa using Nat.shiftRight_eq_div_pow c 8
  have h2 : c &&& 0xFF = c % 256 := by
    have hx := Nat.and_pow_two_sub_one_eq_mod c 8
    norm_num at hx
    exact hx
  have h3 : (c / 256) <<< 8 = 2 ^ 8 * (c / 256) := by
    rw [Nat.shiftLeft_eq]; ring
  have h4 : c % 256 < 2 ^ 8 := by
    have := Nat.mod_lt c (y := 256) (by norm_num)
    norm_num
    omega
  rw [h1, h2, h3, ← Nat.mul_add_lt_is_or h4 (c / 256)]
  omega

theorem sum16_congr (f g : Nat → Nat) (len : Nat) :
    ∀ k i, len - i ≤ k → (∀ m, i ≤ m → m < len → g m = f m) →
    sum16 g len i = sum16 f len i := by
  intro k
  induction k with
  | zero =>
    intro i hk _
    conv_lhs => rw [sum16]
    conv_rhs => rw [sum16]
    have hn : ¬ i < len := by omega
    rw [dif_neg hn, dif_neg hn]
  | succ k ih =>
    intro i hk h
    conv_lhs => rw [sum16]
    conv_rhs => rw [sum16]
    by_cases hi : i < len
    · rw [dif_pos hi, dif_pos hi]
      have e1 : g i = f i := h i le_rfl hi
      have e2 : (if i + 1 < len then g (i + 1) else 0)
              = (if i + 1 < len then f (i + 1) else 0) := by
        by_cases h2 : i + 1 < len
        · rw [if_pos h2, if_pos h2, h (i + 1) (by omega) h2]
        · rw [if_neg h2, if_neg h2]
      rw [e1, e2, ih (i + 2) (by omega) (fun m hm1 hm2 => h m (by omega) hm2)]
    · rw [dif_neg hi, dif_neg hi]

/-- Patching two zero bytes forming one aligned word of the summed region
adds exactly that word to the 16-bit word sum. -/
theorem sum16_upd2 (f : Nat → Nat) (len j j' a b : Nat) (hj' : j' = j + 1)
    (hz1 : f j = 0) (hz2 : f j' = 0) (hjl : j' < len) :
    ∀ k i, len - i ≤ k → i ≤ j → (j - i) % 2 = 0 →
    sum16 (upd (upd f j a) j' b) len i = sum16 f len i + ((a <<< 8) ||| b) := by
  subst hj'
  intro k
  induction k with
  | zero => intro i hk hij _; omega
  | succ k ih =>
    intro i hk hij hpar
    have hi : i < len := by omega
    conv_lhs => rw [sum16]
    conv_rhs => rw [sum16]
    rw [dif_pos hi, dif_pos hi]
    by_cases hej : i = j
    · subst hej
      have hii : i + 1 < len := hjl
      rw [if_pos hii, if_pos hii]
      have e1 : upd (upd f i a) (i + 1) b i = a := by
        rw [upd_other _ _ _ _ (by omega), upd_self]
      have e2 : upd (upd f i a) (i + 1) b (i + 1) = b := upd_self _ _ _
      have e3 : sum16 (upd (upd f i a) (i + 1) b) len (i + 2) = sum16 f len (i + 2) := by
        apply sum16_congr _ _ _ (len - (i + 2)) _ le_rfl
        intro m hm1 hm2
        rw [upd_other _ _ _ _ (by omega), upd_other _ _ _ _ (by omega)]
      rw [e1, e2, e3, hz1, hz2]
      have hzz : ((0 : Nat) <<< 8) ||| 0 = 0 := by decide
      rw [hzz]
      omega
    · have e1 : upd (upd f j a) (j + 1) b i = f i := by
        rw [upd_other _ _ _ _ (by omega), upd_other _ _ _ _ (by omega)]
      have e2 : (if i + 1 < len then upd (upd f j a) (j + 1) b (i + 1) else 0)
              = (if i + 1 < len then f (i + 1) else 0) := by
        by_cases h2 : i + 1 < len
        · rw [if_pos h2, if_pos h2, upd_other _ _ _ _ (by omega), upd_other _ _ _ _ (by omega)]
        · rw [if_neg h2, if_neg h2]
      rw [e1, e2, ih (i + 2) (by omega) (by omega) (by omega)]
      omega

theorem ip_checksum_congr (f g : Nat → Nat) (len : Nat)
    (h : ∀ m, m < len → g m = f m) : ip_checksum g len = ip_checksum f len := by
  simp only [ip_checksum]
  rw [sum16_congr f g len len 0 (by omega) (fun m _ hm2 => h m hm2)]

theorem tcp_checksum_congr (ipf ipg tf tg : Nat → Nat) (len : Nat)
    (hip : ∀ m, m < 20 → ipg m = ipf m) (ht : ∀ m, m < len → tg m = tf m) :
    tcp_checksum ipg tg len = tcp_checksum ipf tf len := by
  simp only [tcp_checksum]
  rw [sum16_congr tf tg len len 0 (by omega) (fun m _ hm2 => ht m hm2),
      hip 12 (by norm_num), hip 13 (by norm_num), hip 14 (by norm_num),
      hip 15 (by norm_num), hip 16 (by norm_num), hip 17 (by norm_num),
      hip 18 (by norm_num), hip 19 (by norm_num)]

/-- Storing the computed IP checksum into the zeroed checksum field makes
the checksum of the resulting header recompute to zero. -/
theorem ip_fill_roundtrip (g : Nat → Nat) (c : Nat) (h10 : g 10 = 0) (h11 : g 11 = 0)
    (hc : c = ip_checksum g 20) :
    ip_checksum (upd (upd g 10 (c >>> 8)) 11 (c &&& 0xFF)) 20 = 0 := by
  have hs := sum16_upd2 g 20 10 11 (c >>> 8) (c &&& 0xFF)
    (by norm_num) h10 h11 (by norm_num) 20 0 (by norm_num) (by norm_num) (by norm_num)
  rw [split_or_byte] at hs
  simp only [ip_checksum] at hc ⊢
  rw [hs, hc]
  exact oc_roundtrip _

/-- Storing the computed TCP checksum into the zeroed checksum field makes
the pseudo-header checksum of the resulting segment recompute to zero. -/
theorem tcp_fill_roundtrip (ipf g : Nat → Nat) (len c : Nat) (hL : 18 ≤ len)
    (h16 : g 16 = 0) (h17 : g 17 = 0) (hc : c = tcp_checksum ipf g len) :
    tcp_checksum ipf (upd (upd g 16 (c >>> 8)) 17 (c &&& 0xFF)) len = 0 := by
  have hs := sum16_upd2 g len 16 17 (c >>> 8) (c &&& 0xFF)
    (by norm_num) h16 h17 (by omega) len 0 (by omega) (by norm_num) (by norm_num)
  rw [split_or_byte] at hs
  simp only [tcp_checksum] at hc ⊢
  rw [hs, ← Nat.add_assoc, hc]
  exact oc_roundtrip _

/-! Layout lemmas about the injected-packet builders. -/

theorem tcpEthIpBytes_length (v : VTcpState) (dl : Nat) : (tcpEthIpBytes v dl).length = 34 := by
  simp [tcpEthIpBytes]

theorem tcpHeaderBytes_length (v : VTcpState) (fl : Nat) :
    (tcpHeaderBytes v fl).length = 20 := by
  simp [tcpHeaderBytes]

set_option maxRecDepth 4096 in
theorem dhcpPacket_length (xid mac : Nat → Nat) (ack : Bool) :
    (dhcpPacket xid mac ack).length = 344 := by
  cases ack <;> simp [dhcpPacket]

/-- Bytes of the IP header region are unchanged from stage 2 to stage 4
(TCP header and payload are written above it). -/
theorem tcpStage4_ip_view (buf : Nat → Nat) (t : Nat) (v : VTcpState) (fl : Nat)
    (data : Nat → Nat) (dl k : Nat) (hk : k < 20) :
    tcpStage4 buf t v fl data dl (t + 16 + k) = tcpStage2 buf t v dl (t + 16 + k) := by
  simp only [tcpStage4, tcpStage3]
  rw [wrCpy_lt _ _ _ _ _ _ (by omega), wrList_lt _ _ _ _ (by omega)]

/-- Bytes of the IP header region are unchanged from stage 4 to stage 6. -/
theorem tcpStage6_ip_view (buf : Nat → Nat) (t : Nat) (v : VTcpState) (fl : Nat)
    (data : Nat → Nat) (dl k : Nat) (hk : k < 20) :
    tcpStage6 buf t v fl data dl (t + 16 + k) = tcpStage4 buf t v fl data dl (t + 16 + k) := by
  simp only [tcpStage6, tcpStage5]
  rw [upd_other _ _ _ _ (by omega), upd_other _ _ _ _ (by omega),
      upd_other _ _ _ _ (by omega), upd_other _ _ _ _ (by omega)]

/-- The IP header view of stage 2 is the checksum-patched view of stage 1. -/
theorem tcpStage2_ip_view (buf : Nat → Nat) (t : Nat) (v : VTcpState) (dl m : Nat)
    (hm : m < 20) :
    tcpStage2 buf t v dl (t + 16 + m)
      = upd (upd (fun k => tcpStage1 buf t v dl (t + 16 + k)) 10
          (ip_checksum (fun k => tcpStage1 buf t v dl (t + 16 + k)) 20 >>> 8)) 11
          (ip_checksum (fun k => tcpStage1 buf t v dl (t + 16 + k)) 20 &&& 0xFF) m := by
  simp only [tcpStage2]
  by_cases h11 : m = 11
  · subst h11
    rw [show t + 16 + 11 = t + 27 from by omega, upd_self, upd_self]
  · by_cases h10 : m = 10
    · subst h10
      rw [show t + 16 + 10 = t + 26 from by omega, upd_other _ _ _ _ (by omega), upd_self,
          upd_other _ _ _ _ (by omega), upd_self]
    · rw [upd_other _ _ _ _ (by omega), upd_other _ _ _ _ (by omega),
          upd_other _ _ _ _ (by omega), upd_other _ _ _ _ (by omega)]

/-- The checksum field of the stage-1 IP header is still zero (byte 10). -/
theorem tcpStage1_ck_hi (buf : Nat → Nat) (t : Nat) (v : VTcpState) (dl : Nat) :
    tcpStage1 buf t v dl (t + 16 + 10) = 0 := by
  simp only [tcpStage1]
  rw [show t + 16 + 10 = t + 26 from by omega,
      wrList_getD _ _ _ _ (by omega) (by rw [tcpEthIpBytes_length]; omega),
      show t + 26 - (t + 2) = 24 from by omega]
  rfl

/-- The checksum field of the stage-1 IP header is still zero (byte 11). -/
theorem tcpStage1_ck_lo (buf : Nat → Nat) (t : Nat) (v : VTcpState) (dl : Nat) :
    tcpStage1 buf t v dl (t + 16 + 11) = 0 := by
  simp only [tcpStage1]
  rw [show t + 16 + 11 = t + 27 from by omega,
      wrList_getD _ _ _ _ (by omega) (by rw [tcpEthIpBytes_length]; omega),
      show t + 27 - (t + 2) = 25 from by omega]
  rfl

/-- The TCP region view of stage 6 is the checksum-patched view of
stage 4. -/
theorem tcpStage6_tcp_view (buf : Nat → Nat) (t : Nat) (v : VTcpState) (fl : Nat)
    (data : Nat → Nat) (dl m : Nat) (hm : m < 20 + dl) :
    tcpStage6 buf t v fl data dl (t + 36 + m)
      = upd (upd (fun k => tcpStage4 buf t v fl data dl (t + 36 + k)) 16
          (tcp_checksum (fun k => tcpStage4 buf t v fl data dl (t + 16 + k))
            (fun k => tcpStage4 buf t v fl data dl (t + 36 + k)) (20 + dl) >>> 8)) 17
          (tcp_checksum (fun k => tcpStage4 buf t v fl data dl (t + 16 + k))
            (fun k => tcpStage4 buf t v fl data dl (t + 36 + k)) (20 + dl) &&& 0xFF) m := by
  simp only [tcpStage6, tcpStage5]
  rw [upd_other _ _ _ _ (by omega), upd_other _ _ _ _ (by omega)]
  by_cases h17 : m = 17
  · subst h17
    rw [show t + 36 + 17 = t + 53 from by omega, upd_self, upd_self]
  · by_cases h16 : m = 16
    · subst h16
      rw [show t + 36 + 16 = t + 52 from by omega, upd_other _ _ _ _ (by omega), upd_self,
          upd_other _ _ _ _ (by omega), upd_self]
    · rw [upd_other _ _ _ _ (by omega), upd_other _ _ _ _ (by omega),
          upd_other _ _ _ _ (by omega), upd_other _ _ _ _ (by omega)]

/-- The TCP checksum field of the stage-4 segment is still zero (byte 16). -/
theorem tcpStage4_ck_hi (buf : Nat → Nat) (t : Nat) (v : VTcpState) (fl : Nat)
    (data : Nat → Nat) (dl : Nat) :
    tcpStage4 buf t v fl data dl (t + 36 + 16) = 0 := by
  simp only [tcpStage4, tcpStage3]
  rw [show t + 36 + 16 = t + 52 from by omega, wrCpy_lt _ _ _ _ _ _ (by omega),
      wrList_getD _ _ _ _ (by omega) (by rw [tcpHeaderBytes_length]; omega),
      show t + 52 - (t + 36) = 16 from by omega]
  rfl

/-- The TCP checksum field of the stage-4 segment is still zero (byte 17). -/
theorem tcpStage4_ck_lo (buf : Nat → Nat) (t : Nat) (v : VTcpState) (fl : Nat)
    (data : Nat → Nat) (dl : Nat) :
    tcpStage4 buf t v fl data dl (t + 36 + 17) = 0 := by
  simp only [tcpStage4, tcpStage3]
  rw [show t + 36 + 17 = t + 53 from by omega, wrCpy_lt _ _ _ _ _ _ (by omega),
      wrList_getD _ _ _ _ (by omega) (by rw [tcpHeaderBytes_length]; omega),
      show t + 53 - (t + 36) = 17 from by omega]
  rfl

/-- DHCP: the IP header view of stage 3 equals the view of stage 2. -/
theorem dhcpStage3_ip_view (buf xid mac : Nat → Nat) (ack : Bool) (k : Nat) (hk : k < 20) :
    dhcpStage3 buf xid mac ack (16 + k) = dhcpStage2 buf xid mac ack (16 + k) := by
  simp only [dhcpStage3]
  rw [upd_other _ _ _ _ (by omega), upd_other _ _ _ _ (by omega)]

/-- DHCP: the IP header view of stage 2 is the checksum-patched view of
stage 1. -/
theorem dhcpStage2_ip_view (buf xid mac : Nat → Nat) (ack : Bool) (m : Nat) (hm : m < 20) :
    dhcpStage2 buf xid mac ack (16 + m)
      = upd (upd (fun k => dhcpStage1 buf xid mac ack (16 + k)) 10
          (ip_checksum (fun k => dhcpStage1 buf xid mac ack (16 + k)) 20 >>> 8)) 11
          (ip_checksum (fun k => dhcpStage1 buf xid mac ack (16 + k)) 20 &&& 0xFF) m := by
  simp only [dhcpStage2]
  by_cases h11 : m = 11
  · subst h11
    rw [show 16 + 11 = 27 from by omega, upd_self, upd_self]
  · by_cases h10 : m = 10
    · subst h10
      rw [show 16 + 10 = 26 from by omega, upd_other _ _ _ _ (by omega), upd_self,
          upd_other _ _ _ _ (by omega), upd_self]
    · rw [upd_other _ _ _ _ (by omega), upd_other _ _ _ _ (by omega),
          upd_other _ _ _ _ (by omega), upd_other _ _ _ _ (by omega)]

set_option maxRecDepth 4096 in
/-- DHCP: the checksum field of the stage-1 IP header is zero (byte 10). -/
theorem dhcpStage1_ck_hi (buf xid mac : Nat → Nat) (ack : Bool) :
    dhcpStage1 buf xid mac ack (16 + 10) = 0 := by
  simp only [dhcpStage1]
  rw [wrList_getD _ _ _ _ (by omega) (by rw [dhcpPacket_length]; omega)]
  simp only [dhcpPacket]
  rw [List.getD_append_right _ _ _ _ (by simp), List.getD_append_right _ _ _ _ (by simp),
      List.getD_append_right _ _ _ _ (by simp), List.getD_append_right _ _ _ _ (by simp),
      List.getD_append _ _ _ _ (by simp)]
  rfl

set_option maxRecDepth 4096 in
/-- DHCP: the checksum field of the stage-1 IP header is zero (byte 11). -/
theorem dhcpStage1_ck_lo (buf xid mac : Nat → Nat) (ack : Bool) :
    dhcpStage1 buf xid mac ack (16 + 11) = 0 := by
  simp only [dhcpStage1]
  rw [wrList_getD _ _ _ _ (by omega) (by rw [dhcpPacket_length]; omega)]
  simp only [dhcpPacket]
  rw [List.getD_append_right _ _ _ _ (by simp), List.getD_append_right _ _ _ _ (by simp),
      List.getD_append_right _ _ _ _ (by simp), List.getD_append_right _ _ _ _ (by simp),
      List.getD_append _ _ _ _ (by simp)]
  rfl

/-- C7: for every IPv4 header the core emits, recomputing its checksum
over the stored header (checksum field included) yields 0x0000, and for
every emitted TCP segment the pseudo-header checksum recomputed over the
stored segment yields 0x0000.  The first two conjuncts verify the IP
header and the TCP segment of every packet appended by
inject_tcp_response; the third verifies the IP header of every frame
built by inject_dhcp_response. -/
theorem c7_emitted_checksums_verify (s : CardState) (n flags : Nat)
    (data : Nat → Nat) (data_len : Nat) (s2 : CardState) (n2 : Nat) (ack : Bool) :
    ip_checksum (fun k => ((inject_tcp_response s n flags data data_len).sockets n).rx_buf
        ((s.sockets n).rx_tail + 16 + k)) 20 = 0 ∧
    tcp_checksum
      (fun k => ((inject_tcp_response s n flags data data_len).sockets n).rx_buf
        ((s.sockets n).rx_tail + 16 + k))
      (fun k => ((inject_tcp_response s n flags data data_len).sockets n).rx_buf
        ((s.sockets n).rx_tail + 36 + k)) (20 + data_len) = 0 ∧
    ip_checksum (fun k => ((inject_dhcp_response s2 n2 ack).sockets n2).rx_buf (16 + k))
      20 = 0 := by
  have hbuf : ((inject_tcp_response s n flags data data_len).sockets n).rx_buf
      = tcpStage6 (s.sockets n).rx_buf (s.sockets n).rx_tail s.vtcp flags data data_len := by
    simp [inject_tcp_response, updSock]
  have hbufD : ((inject_dhcp_response s2 n2 ack).sockets n2).rx_buf
      = dhcpStage3 (s2.sockets n2).rx_buf s2.dhcp_xid s2.client_mac ack := by
    simp [inject_dhcp_response, updSock]
  rw [hbuf, hbufD]
  refine ⟨?_, ?_, ?_⟩
  · rw [ip_checksum_congr
        (fun k => tcpStage2 (s.sockets n).rx_buf (s.sockets n).rx_tail s.vtcp data_len
          ((s.sockets n).rx_tail + 16 + k)) _ 20
        (fun m hm => by
          rw [tcpStage6_ip_view _ _ _ _ _ _ _ hm, tcpStage4_ip_view _ _ _ _ _ _ _ hm]),
        ip_checksum_congr _ _ 20
        (fun m hm => tcpStage2_ip_view _ _ _ _ _ hm)]
    exact ip_fill_roundtrip _ _ (tcpStage1_ck_hi _ _ _ _) (tcpStage1_ck_lo _ _ _ _) rfl
  · rw [tcp_checksum_congr
        (fun k => tcpStage4 (s.sockets n).rx_buf (s.sockets n).rx_tail s.vtcp flags data data_len
          ((s.sockets n).rx_tail + 16 + k)) _
        (upd (upd (fun k => tcpStage4 (s.sockets n).rx_buf (s.sockets n).rx_tail s.vtcp
              flags data data_len ((s.sockets n).rx_tail + 36 + k)) 16
          (tcp_checksum
            (fun k => tcpStage4 (s.sockets n).rx_buf (s.sockets n).rx_tail s.vtcp
              flags data data_len ((s.sockets n).rx_tail + 16 + k))
            (fun k => tcpStage4 (s.sockets n).rx_buf (s.sockets n).rx_tail s.vtcp
              flags data data_len ((s.sockets n).rx_tail + 36 + k)) (20 + data_len) >>> 8)) 17
          (tcp_checksum
            (fun k => tcpStage4 (s.sockets n).rx_buf (s.sockets n).rx_tail s.vtcp
              flags data data_len ((s.sockets n).rx_tail + 16 + k))
            (fun k => tcpStage4 (s.sockets n).rx_buf (s.sockets n).rx_tail s.vtcp
              flags data data_len ((s.sockets n).rx_tail + 36 + k)) (20 + data_len) &&& 0xFF))
        _ (20 + data_len)
        (fun m hm => tcpStage6_ip_view _ _ _ _ _ _ _ hm)
        (fun m hm => tcpStage6_tcp_view _ _ _ _ _ _ _ hm)]
    exact tcp_fill_roundtrip _ _ _ _ (by omega)
      (tcpStage4_ck_hi _ _ _ _ _ _) (tcpStage4_ck_lo _ _ _ _ _ _) rfl
  · rw [ip_checksum_congr
        (fun k => dhcpStage2 (s2.sockets n2).rx_buf s2.dhcp_xid s2.client_mac ack (16 + k))
        _ 20 (fun m hm => dhcpStage3_ip_view _ _ _ _ _ hm),
        ip_checksum_congr _ _ 20 (fun m hm => dhcpStage2_ip_view _ _ _ _ _ hm)]
    exact ip_fill_roundtrip _ _ (dhcpStage1_ck_hi _ _ _ _) (dhcpStage1_ck_lo _ _ _ _) rfl

/-- Bytes below the starting tail are untouched by the TCP packet builder. -/
theorem tcpStage6_below (buf : Nat → Nat) (t : Nat) (v : VTcpState) (fl : Nat)
    (data : Nat → Nat) (dl j : Nat) (hj : j < t) :
    tcpStage6 buf t v fl data dl j = buf j := by
  simp only [tcpStage6, tcpStage5, tcpStage4, tcpStage3, tcpStage2, tcpStage1]
  rw [upd_other _ _ _ _ (by omega), upd_other _ _ _ _ (by omega),
      upd_other _ _ _ _ (by omega), upd_other _ _ _ _ (by omega),
      wrCpy_lt _ _ _ _ _ _ (by omega), wrList_lt _ _ _ _ (by omega),
      upd_other _ _ _ _ (by omega), upd_other _ _ _ _ (by omega),
      wrList_lt _ _ _ _ (by omega)]

/-- C3 (amended): only the synthesized TCP segments are appended at the
current tail of the RX staging buffer, preserving the head index and
every byte below the old tail; ARP replies and DHCP responses instead
reset the head to 0 and write their frame from the start of the buffer,
replacing whatever was queued. -/
theorem c3_tcp_appends_arp_dhcp_overwrite :
    (∀ (s : CardState) (n flags : Nat) (data : Nat → Nat) (dl : Nat),
      ((inject_tcp_response s n flags data dl).sockets n).rx_head = (s.sockets n).rx_head ∧
      ((inject_tcp_response s n flags data dl).sockets n).rx_tail
        = ((s.sockets n).rx_tail + 56 + dl) % 0x10000 ∧
      (∀ j, j < (s.sockets n).rx_tail →
        ((inject_tcp_response s n flags data dl).sockets n).rx_buf j
          = (s.sockets n).rx_buf j)) ∧
    (∀ (s : CardState) (n : Nat) (frame : Nat → Nat),
      ((inject_arp_reply s n frame).sockets n).rx_head = 0 ∧
      ((inject_arp_reply s n frame).sockets n).rx_tail = 44) ∧
    (∀ (s : CardState) (n : Nat) (ack : Bool),
      ((inject_dhcp_response s n ack).sockets n).rx_head = 0 ∧
      ((inject_dhcp_response s n ack).sockets n).rx_tail = 344) := by
  refine ⟨fun s n flags data dl => ?_, fun s n frame => ?_, fun s n ack => ?_⟩
  · rw [inject_tcp_response, updSock_sockets_self]
    refine ⟨rfl, rfl, fun j hj => ?_⟩
    exact tcpStage6_below _ _ _ _ _ _ _ hj
  · rw [inject_arp_reply, updSock_sockets_self]
    exact ⟨rfl, rfl⟩
  · rw [inject_dhcp_response, updSock_sockets_self]
    exact ⟨rfl, rfl⟩

/-- C3 witness: instantiates the appended-TCP conjunct on a state with
queued data. -/
theorem c3_witness :
    3 < (stateC3.sockets 0).rx_tail ∧
    ((inject_tcp_response stateC3 0 0x18 frame0 5).sockets 0).rx_buf 3
      = (stateC3.sockets 0).rx_buf 3 :=
  ⟨by decide, (c3_tcp_appends_arp_dhcp_overwrite.1 stateC3 0 0x18 frame0 5).2.2 3 (by decide)⟩

/-- C3 counterexample: an ARP reply injected while 40 bytes are queued
(head 10, tail 50) resets the head index and rewrites byte 2, so the
claim that every injected frame leaves the head and the bytes below the
old tail unchanged is false for inject_arp_reply. -/
theorem c3_counterexample :
    ((inject_arp_reply stateC3 0 frame0).sockets 0).rx_head ≠ (stateC3.sockets 0).rx_head ∧
    ((inject_arp_reply stateC3 0 frame0).sockets 0).rx_buf 2 ≠ (stateC3.sockets 0).rx_buf 2 ∧
    (stateC3.sockets 0).rx_tail = 50 := by
  refine ⟨by decide, by decide, by decide⟩

/-- C8: inject_tcp_response performs no capacity check.  Starting from
rx_tail = 4000 on the 4096-byte staging buffer, injecting a 100-byte
payload writes up to index 4155 and leaves the tail at 4156, beyond the
buffer capacity, instead of skipping the injection: in the C code this
is an out-of-bounds write into rx_buf[4096]. -/
theorem c8_no_overflow_guard :
    ((inject_tcp_response stateC8 0 0x18 dataC8 100).sockets 0).rx_tail = 4156 ∧
    4096 < ((inject_tcp_response stateC8 0 0x18 dataC8 100).sockets 0).rx_tail ∧
    ((inject_tcp_response stateC8 0 0x18 dataC8 100).sockets 0).rx_buf 4100 = 9 ∧
    (stateC8.sockets 0).rx_buf 4100 = 0 := by
  refine ⟨by decide, by decide, by decide, by decide⟩

/-- C9: a MAC-raw SEND whose computed frame length is 0 or above 1600
does nothing except clear the command register. -/
theorem c9_invalid_len_noop (env : CmdEnv) (s : CardState) (n : Nat)
    (hsr : s.memory (0x0400 + n * 0x100 + 0x03) = 0x42)
    (hmac : (s.sockets n).macraw_mode = true)
    (hlen : cdiff (wordOf (s.memory (0x0400 + n * 0x100 + 0x25))
                    (s.memory (0x0400 + n * 0x100 + 0x24)))
                  (wordOf (s.memory (0x0400 + n * 0x100 + 0x23))
                    (s.memory (0x0400 + n * 0x100 + 0x22))) 0x800 = 0
          ∨ 1600 < cdiff (wordOf (s.memory (0x0400 + n * 0x100 + 0x25))
                    (s.memory (0x0400 + n * 0x100 + 0x24)))
                  (wordOf (s.memory (0x0400 + n * 0x100 + 0x23))
                    (s.memory (0x0400 + n * 0x100 + 0x22))) 0x800) :
    socket_command env s n 0x20
      = { s with memory := upd s.memory (0x0400 + n * 0x100 + 0x01) 0 } := by
  simp only [socket_command, handle_macraw_send]
  rw [if_pos hlen]
  simp only [hsr, hmac]
  norm_num

/-- C9 witness: post-reset MAC-raw socket 0 with equal TX pointers. -/
theorem c9_witness :
    stateC9.memory 0x0403 = 0x42 ∧ (stateC9.sockets 0).macraw_mode = true ∧
    cdiff (wordOf (stateC9.memory 0x0425) (stateC9.memory 0x0424))
          (wordOf (stateC9.memory 0x0423) (stateC9.memory 0x0422)) 0x800 = 0 ∧
    socket_command cmdEnv0 stateC9 0 0x20
      = { stateC9 with memory := upd stateC9.memory 0x0401 0 } := by
  refine ⟨by decide, by decide, by decide, ?_⟩
  have h := c9_invalid_len_noop cmdEnv0 stateC9 0 (by decide) (by decide) (Or.inl (by decide))
  simpa using h

/-- C10: a soft-switch access whose offset is not one of the four card
registers (4..7) returns 0 and leaves the card state unchanged. -/
theorem c10_other_switches_noop (env : HostEnv) (s : CardState) (loc v ploc psw : Int)
    (h : psw = 0 ∨ psw = 1 ∨ psw = 2 ∨ psw = 3 ∨ psw = 8 ∨ psw = 9 ∨ psw = 10
       ∨ psw = 11 ∨ psw = 12 ∨ psw = 13 ∨ psw = 14 ∨ psw = 15) :
    handler env s loc v ploc psw = (0, s) := by
  rcases h with h|h|h|h|h|h|h|h|h|h|h|h <;> subst h <;> rfl

/-- C10 witness: offset 2 on a quiescent card. -/
theorem c10_witness :
    ((2 : Int) = 0 ∨ (2 : Int) = 1 ∨ (2 : Int) = 2 ∨ (2 : Int) = 3 ∨ (2 : Int) = 8
      ∨ (2 : Int) = 9 ∨ (2 : Int) = 10 ∨ (2 : Int) = 11 ∨ (2 : Int) = 12
      ∨ (2 : Int) = 13 ∨ (2 : Int) = 14 ∨ (2 : Int) = 15) ∧
    handler hostEnv0 state0 0 (-1) (-1) 2 = (0, state0) :=
  ⟨by decide, c10_other_switches_noop hostEnv0 state0 0 (-1) (-1) 2 (by decide)⟩

/-- With no writability reported, sp_connect changes nothing. -/
theorem sp_connect_quiet (pe : PollEnv) (s : CardState) (n : Nat)
    (h1 : pe.pollout = false) : sp_connect pe s n = s := by
  simp [sp_connect, h1]

/-- With no readable data reported, sp_data changes nothing. -/
theorem sp_data_quiet (pe : PollEnv) (s : CardState) (n : Nat)
    (h2 : pe.pollinData = false) : sp_data pe s n = s := by
  simp [sp_data, h2]

/-- With no pending connection reported, sp_listen changes nothing. -/
theorem sp_listen_quiet (pe : PollEnv) (s : CardState) (n : Nat)
    (h3 : pe.pollinListen = false) : sp_listen pe s n = s := by
  simp [sp_listen, h3]

/-- With no host readiness reported, socket_poll changes nothing. -/
theorem socket_poll_quiet (pe : PollEnv) (s : CardState) (n : Nat)
    (h1 : pe.pollout = false) (h2 : pe.pollinData = false) (h3 : pe.pollinListen = false) :
    socket_poll pe s n = s := by
  rw [socket_poll, sp_connect_quiet _ _ _ h1, sp_data_quiet _ _ _ h2,
      sp_listen_quiet _ _ _ h3, ite_self]

/-- With no host readiness reported, virtual_tcp_poll changes nothing. -/
theorem virtual_tcp_poll_quiet (ve : VPollEnv) (s : CardState) (n : Nat)
    (h : ve.pollin = false) : virtual_tcp_poll ve s n = s := by
  simp [virtual_tcp_poll, h]

/-- sp_connect writes the memory image only at the Sn_SR byte. -/
theorem sp_connect_memory (pe : PollEnv) (s : CardState) (n a : Nat)
    (ha : a ≠ 0x0400 + n * 0x100 + 0x03) :
    (sp_connect pe s n).memory a = s.memory a := by
  simp only [sp_connect, updSock]
  split_ifs <;> simp [upd, ha]

/-- sp_data writes the memory image only at the Sn_SR byte. -/
theorem sp_data_memory (pe : PollEnv) (s : CardState) (n a : Nat)
    (ha : a ≠ 0x0400 + n * 0x100 + 0x03) :
    (sp_data pe s n).memory a = s.memory a := by
  simp only [sp_data, updSock]
  split_ifs <;> simp [upd, ha]

/-- sp_listen writes the memory image only at the Sn_SR byte. -/
theorem sp_listen_memory (pe : PollEnv) (s : CardState) (n a : Nat)
    (ha : a ≠ 0x0400 + n * 0x100 + 0x03) :
    (sp_listen pe s n).memory a = s.memory a := by
  simp only [sp_listen, updSock]
  split_ifs <;> simp [upd, ha]

/-- socket_poll writes the memory image only at the Sn_SR byte of the
polled socket. -/
theorem socket_poll_memory (pe : PollEnv) (s : CardState) (n a : Nat)
    (ha : a ≠ 0x0400 + n * 0x100 + 0x03) :
    (socket_poll pe s n).memory a = s.memory a := by
  rw [socket_poll]
  split_ifs
  · rfl
  · rw [sp_listen_memory _ _ _ _ ha, sp_data_memory _ _ _ _ ha, sp_connect_memory _ _ _ _ ha]

/-- virtual_tcp_poll never writes the memory image. -/
theorem virtual_tcp_poll_memory (ve : VPollEnv) (s : CardState) (n a : Nat) :
    (virtual_tcp_poll ve s n).memory a = s.memory a := by
  simp only [virtual_tcp_poll, inject_tcp_response, bump_our_seq, updSock]
  split_ifs <;> rfl

/-- C2: an MMIO read of either Sn_TX_FSR byte through the slot handler
returns the corresponding byte of bufsize − ((TX_WR − TX_RD) mod bufsize)
with bufsize = 0x0800, computed from the pointer registers as they stand
at the read (the poll pass cannot move them). -/
theorem c2_tx_fsr_mmio (env : HostEnv) (s : CardState) (n : Nat) (hn : n < 4) :
    (s.addr_ptr = 0x0400 + n * 0x100 + 0x20 →
      (handler env s 0 (-1) (-1) 7).1
        = HIB (0x800 - cdiff
            (wordOf (s.memory (0x0400 + n * 0x100 + 0x25))
              (s.memory (0x0400 + n * 0x100 + 0x24)))
            (wordOf (s.memory (0x0400 + n * 0x100 + 0x23))
              (s.memory (0x0400 + n * 0x100 + 0x22))) 0x800)) ∧
    (s.addr_ptr = 0x0400 + n * 0x100 + 0x21 →
      (handler env s 0 (-1) (-1) 7).1
        = LOB (0x800 - cdiff
            (wordOf (s.memory (0x0400 + n * 0x100 + 0x25))
              (s.memory (0x0400 + n * 0x100 + 0x24)))
            (wordOf (s.memory (0x0400 + n * 0x100 + 0x23))
              (s.memory (0x0400 + n * 0x100 + 0x22))) 0x800)) := by
  have hmem : ∀ a, a ≠ 0x0400 + n * 0x100 + 0x03 →
      ((if ((socket_poll env.pe s n).sockets n).macraw_mode = true
        then virtual_tcp_poll env.ve (socket_poll env.pe s n) n
        else socket_poll env.pe s n).memory a = s.memory a) := by
    intro a ha
    by_cases hm : ((socket_poll env.pe s n).sockets n).macraw_mode = true
    · rw [if_pos hm, virtual_tcp_poll_memory, socket_poll_memory _ _ _ _ ha]
    · rw [if_neg hm, socket_poll_memory _ _ _ _ ha]
  constructor <;> intro ha
  · have hread : (w5100_read ⟨env.pe, env.ve⟩ s s.addr_ptr).1
        = HIB (0x800 - cdiff
            (wordOf (s.memory (0x0400 + n * 0x100 + 0x25))
              (s.memory (0x0400 + n * 0x100 + 0x24)))
            (wordOf (s.memory (0x0400 + n * 0x100 + 0x23))
              (s.memory (0x0400 + n * 0x100 + 0x22))) 0x800) := by
      rw [ha]
      simp only [w5100_read]
      rw [show (0x0400 + n * 0x100 + 0x20 - 0x0400) / 0x100 = n from by omega,
          show (0x0400 + n * 0x100 + 0x20 - 0x0400) % 0x100 = 0x20 from by omega]
      rw [if_neg (show ¬(0x8000 ≤ 0x0400 + n * 0x100 + 0x20) from by omega)]
      rw [if_pos (show (0x0400 : Nat) ≤ 0x0400 + n * 0x100 + 0x20
        ∧ 0x0400 + n * 0x100 + 0x20 < 0x4000 ∧ n < 4 from ⟨by omega, by omega, hn⟩)]
      rw [dif_pos ⟨⟨by omega, by omega, hn⟩, Or.inl rfl⟩,
          if_pos (show (0x20 : Nat) = 0x20 from rfl)]
      rw [hmem _ (by omega), hmem _ (by omega), hmem _ (by omega), hmem _ (by omega)]
    simp only [handler, reduceIte]
    by_cases hai : (w5100_read ⟨env.pe, env.ve⟩ s s.addr_ptr).2.mode &&& 0x02 ≠ 0
    · rw [if_pos hai]
      exact hread
    · rw [if_neg hai]
      exact hread
  · have hread : (w5100_read ⟨env.pe, env.ve⟩ s s.addr_ptr).1
        = LOB (0x800 - cdiff
            (wordOf (s.memory (0x0400 + n * 0x100 + 0x25))
              (s.memory (0x0400 + n * 0x100 + 0x24)))
            (wordOf (s.memory (0x0400 + n * 0x100 + 0x23))
              (s.memory (0x0400 + n * 0x100 + 0x22))) 0x800) := by
      rw [ha]
      simp only [w5100_read]
      rw [show (0x0400 + n * 0x100 + 0x21 - 0x0400) / 0x100 = n from by omega,
          show (0x0400 + n * 0x100 + 0x21 - 0x0400) % 0x100 = 0x21 from by omega]
      rw [if_neg (show ¬(0x8000 ≤ 0x0400 + n * 0x100 + 0x21) from by omega)]
      rw [if_pos (show (0x0400 : Nat) ≤ 0x0400 + n * 0x100 + 0x21
        ∧ 0x0400 + n * 0x100 + 0x21 < 0x4000 ∧ n < 4 from ⟨by omega, by omega, hn⟩)]
      rw [dif_pos ⟨⟨by omega, by omega, hn⟩, Or.inr rfl⟩,
          if_neg (show ¬((0x21 : Nat) = 0x20) from by decide)]
      rw [hmem _ (by omega), hmem _ (by omega), hmem _ (by omega), hmem _ (by omega)]
    simp only [handler, reduceIte]
    by_cases hai : (w5100_read ⟨env.pe, env.ve⟩ s s.addr_ptr).2.mode &&& 0x02 ≠ 0
    · rw [if_pos hai]
      exact hread
    · rw [if_neg hai]
      exact hread

/-- C2 witness: post-reset card, socket 0, pointers both at 0x4000, so
the free size reads back as 0x0800 (high byte 8). -/
theorem c2_witness :
    (0 : Nat) < 4 ∧ stateC2.addr_ptr = 0x0400 + 0 * 0x100 + 0x20 ∧
    (handler hostEnv0 stateC2 0 (-1) (-1) 7).1
      = HIB (0x800 - cdiff
          (wordOf (stateC2.memory (0x0400 + 0 * 0x100 + 0x25))
            (stateC2.memory (0x0400 + 0 * 0x100 + 0x24)))
          (wordOf (stateC2.memory (0x0400 + 0 * 0x100 + 0x23))
            (stateC2.memory (0x0400 + 0 * 0x100 + 0x22))) 0x800) :=
  ⟨by decide, by decide,
    (c2_tx_fsr_mmio hostEnv0 stateC2 0 (by decide)).1 (by decide)⟩

/-- C4 (amended): an MMIO read of either Sn_RX_RSR byte returns the
corresponding byte of (rx_tail − rx_head) masked with 0x0FFF, that is
the residue mod 0x1000, of the staging-buffer indices at the time of the
read (stated here for a poll pass that reports no host activity). -/
theorem c4_rx_rsr_mmio (env : HostEnv) (s : CardState) (n : Nat) (hn : n < 4)
    (hq1 : env.pe.pollout = false) (hq2 : env.pe.pollinData = false)
    (hq3 : env.pe.pollinListen = false) (hq4 : env.ve.pollin = false) :
    (s.addr_ptr = 0x0400 + n * 0x100 + 0x26 →
      (handler env s 0 (-1) (-1) 7).1
        = HIB (cdiff (s.sockets n).rx_tail (s.sockets n).rx_head 0x1000)) ∧
    (s.addr_ptr = 0x0400 + n * 0x100 + 0x27 →
      (handler env s 0 (-1) (-1) 7).1
        = LOB (cdiff (s.sockets n).rx_tail (s.sockets n).rx_head 0x1000)) := by
  have hpolls : (if ((socket_poll env.pe s n).sockets n).macraw_mode = true
        then virtual_tcp_poll env.ve (socket_poll env.pe s n) n
        else socket_poll env.pe s n) = s := by
    rw [socket_poll_quiet _ _ _ hq1 hq2 hq3]
    by_cases hm : (s.sockets n).macraw_mode = true
    · rw [if_pos hm, virtual_tcp_poll_quiet _ _ _ hq4]
    · rw [if_neg hm]
  constructor <;> intro ha
  · have hread : (w5100_read ⟨env.pe, env.ve⟩ s s.addr_ptr).1
        = HIB (cdiff (s.sockets n).rx_tail (s.sockets n).rx_head 0x1000) := by
      rw [ha]
      simp only [w5100_read]
      rw [show (0x0400 + n * 0x100 + 0x26 - 0x0400) / 0x100 = n from by omega,
          show (0x0400 + n * 0x100 + 0x26 - 0x0400) % 0x100 = 0x26 from by omega]
      rw [if_neg (show ¬(0x8000 ≤ 0x0400 + n * 0x100 + 0x26) from by omega)]
      rw [if_pos (show (0x0400 : Nat) ≤ 0x0400 + n * 0x100 + 0x26
        ∧ 0x0400 + n * 0x100 + 0x26 < 0x4000 ∧ n < 4 from ⟨by omega, by omega, hn⟩)]
      rw [hpolls]
      rw [dif_neg (show ¬(((0x0400 : Nat) ≤ 0x0400 + n * 0x100 + 0x26
            ∧ 0x0400 + n * 0x100 + 0x26 < 0x4000 ∧ n < 4)
            ∧ ((0x26 : Nat) = 0x20 ∨ (0x26 : Nat) = 0x21)) from by simp),
          dif_pos ⟨⟨by omega, by omega, hn⟩, Or.inl rfl⟩,
          if_pos (show (0x26 : Nat) = 0x26 from rfl)]
    simp only [handler, reduceIte]
    by_cases hai : (w5100_read ⟨env.pe, env.ve⟩ s s.addr_ptr).2.mode &&& 0x02 ≠ 0
    · rw [if_pos hai]
      exact hread
    · rw [if_neg hai]
      exact hread
  · have hread : (w5100_read ⟨env.pe, env.ve⟩ s s.addr_ptr).1
        = LOB (cdiff (s.sockets n).rx_tail (s.sockets n).rx_head 0x1000) := by
      rw [ha]
      simp only [w5100_read]
      rw [show (0x0400 + n * 0x100 + 0x27 - 0x0400) / 0x100 = n from by omega,
          show (0x0400 + n * 0x100 + 0x27 - 0x0400) % 0x100 = 0x27 from by omega]
      rw [if_neg (show ¬(0x8000 ≤ 0x0400 + n * 0x100 + 0x27) from by omega)]
      rw [if_pos (show (0x0400 : Nat) ≤ 0x0400 + n * 0x100 + 0x27
        ∧ 0x0400 + n * 0x100 + 0x27 < 0x4000 ∧ n < 4 from ⟨by omega, by omega, hn⟩)]
      rw [hpolls]
      rw [dif_neg (show ¬(((0x0400 : Nat) ≤ 0x0400 + n * 0x100 + 0x27
            ∧ 0x0400 + n * 0x100 + 0x27 < 0x4000 ∧ n < 4)
            ∧ ((0x27 : Nat) = 0x20 ∨ (0x27 : Nat) = 0x21)) from by simp),
          dif_pos ⟨⟨by omega, by omega, hn⟩, Or.inr rfl⟩,
          if_neg (show ¬((0x27 : Nat) = 0x26) from by decide)]
    simp only [handler, reduceIte]
    by_cases hai : (w5100_read ⟨env.pe, env.ve⟩ s s.addr_ptr).2.mode &&& 0x02 ≠ 0
    · rw [if_pos hai]
      exact hread
    · rw [if_neg hai]
      exact hread

/-- C4 witness: MAC-raw socket with an empty staging buffer reads RSR 0. -/
theorem c4_witness :
    (0 : Nat) < 4 ∧ hostEnv0.pe.pollout = false ∧ hostEnv0.pe.pollinData = false ∧
    hostEnv0.pe.pollinListen = false ∧ hostEnv0.ve.pollin = false ∧
    stateC4w.addr_ptr = 0x0400 + 0 * 0x100 + 0x26 ∧
    (handler hostEnv0 stateC4w 0 (-1) (-1) 7).1
      = HIB (cdiff (stateC4w.sockets 0).rx_tail (stateC4w.sockets 0).rx_head 0x1000) :=
  ⟨by decide, by decide, by decide, by decide, by decide, by decide,
    (c4_rx_rsr_mmio hostEnv0 stateC4w 0 (by decide) (by decide) (by decide) (by decide)
      (by decide)).1 (by decide)⟩

/-- C4 counterexample: after a guest data segment whose forwarded byte
the host answers with two 1400-byte bursts (code path of the recv drain
loop), the staging buffer holds 2968 queued bytes, and the two RSR bytes
read back 0x0B and 0x98: the RSR value 0x0B98 = 2968 is not below
0x0800, refuting the boundedness clause of the claim. -/
theorem c4_counterexample :
    (handler hostEnv0 stateC4hi 0 (-1) (-1) 7).1 = 0x0B ∧
    (handler hostEnv0 stateC4lo 0 (-1) (-1) 7).1 = 0x98 ∧
    wordOf 0x98 0x0B = 2968 ∧ ¬(2968 < 0x800) ∧
    (stateC4.sockets 0).rx_tail = 2968 ∧ (stateC4.sockets 0).rx_head = 0 := by
  refine ⟨by decide, by decide, by decide, by decide, by decide, by decide⟩

/-- C1 (amended): a mode soft-switch write with bit 7 set runs
w5100_reset before returning: every common register reads back at its
documented default, every socket status byte is CLOSED, the per-socket
adapters are cleared and each previously open per-socket descriptor
above 2 is passed to close() when the card was initialized.  The
virtual-TCP endpoint, however, is left exactly as it was: its host
socket is not closed. -/
theorem c1_mode_reset (env : HostEnv) (s : CardState) (loc ploc : Int) (v : Nat)
    (hb : v < 256) (hv : v &&& 0x80 ≠ 0) :
    (handler env s loc (v : Int) ploc 4).2.memory 0x17 = 0x07 ∧
    (handler env s loc (v : Int) ploc 4).2.memory 0x18 = 0xD0 ∧
    (handler env s loc (v : Int) ploc 4).2.memory 0x19 = 0x08 ∧
    (handler env s loc (v : Int) ploc 4).2.memory 0x1A = 0x55 ∧
    (handler env s loc (v : Int) ploc 4).2.memory 0x1B = 0x55 ∧
    (handler env s loc (v : Int) ploc 4).2.memory 0x28 = 0x00 ∧
    (handler env s loc (v : Int) ploc 4).2.memory 0x0403 = 0x00 ∧
    (handler env s loc (v : Int) ploc 4).2.memory 0x0503 = 0x00 ∧
    (handler env s loc (v : Int) ploc 4).2.memory 0x0603 = 0x00 ∧
    (handler env s loc (v : Int) ploc 4).2.memory 0x0703 = 0x00 ∧
    (∀ i, i < 4 → ((handler env s loc (v : Int) ploc 4).2.sockets i).fd = -1) ∧
    (∀ i, i < 4 → s.initialized = true → 2 < (s.sockets i).fd →
      (s.sockets i).fd ∈ (handler env s loc (v : Int) ploc 4).2.closed_log) ∧
    (handler env s loc (v : Int) ploc 4).2.vtcp = s.vtcp ∧
    (handler env s loc (v : Int) ploc 4).2.mode = v &&& 0x7F := by
  have hh : (handler env s loc (v : Int) ploc 4).2
      = { w5100_reset s with mode := v &&& 0x7F } := by
    simp only [handler]
    rw [if_neg (show ¬((v : Int) = -1) from by omega),
        show (Int.toNat (v : Int)) % 256 = v from by omega,
        if_pos hv]
    rfl
  rw [hh]
  refine ⟨rfl, rfl, rfl, rfl, rfl, rfl, rfl, rfl, rfl, rfl,
    fun i _ => rfl, fun i hi hinit hfd => ?_, rfl, rfl⟩
  show (s.sockets i).fd ∈ (w5100_reset s).closed_log
  refine List.mem_append_right _ ?_
  refine List.mem_filterMap.mpr ⟨i, List.mem_range.mpr hi, ?_⟩
  rw [if_pos ⟨hinit, hfd⟩]

/-- C1 witness: mode write 0x80 on an initialized card. -/
theorem c1_witness :
    (0x80 : Nat) < 256 ∧ (0x80 : Nat) &&& 0x80 ≠ 0 ∧
    (handler hostEnv0 stateC1 0 ((0x80 : Nat) : Int) 0 4).2.memory 0x17 = 0x07 :=
  ⟨by decide, by decide,
    (c1_mode_reset hostEnv0 stateC1 0 0 0x80 (by decide) (by decide)).1⟩

/-- C1 counterexample: the mode-register reset does not close the
translating virtual-TCP endpoint: starting from a card whose endpoint
holds host fd 7, after the reset the endpoint still holds fd 7 and the
reset passed no descriptor to close(), refuting the clause that the
reset closes the translating endpoint. -/
theorem c1_counterexample :
    (handler hostEnv0 stateC1 0 ((0x80 : Nat) : Int) 0 4).2.vtcp.fd = 7 ∧
    (handler hostEnv0 stateC1 0 ((0x80 : Nat) : Int) 0 4).2.closed_log = [] := by
  refine ⟨by decide, ?_⟩
  decide

/-- C5: on a MAC-raw SEND of a non-DHCP frame with EtherType 0x0806, an
ARP reply is injected if and only if the frame is an ARP request (at
least 42 bytes, operation 1) whose target protocol address is
192.168.65.1; otherwise the command only advances Sn_TX_RD and the
socket adapter (hence RX_RSR) is unchanged.  The injected reply, laid
down by arpStage, carries opcode 2, sender hardware address
02:00:DE:AD:BE:01, sender protocol address 192.168.65.1, target
hardware and protocol addresses copied from the request sender fields,
and a leading big-endian length word of 44; inject_arp_reply stores it
at head 0 with tail 44. -/
theorem c5_arp_reply_iff (env : TcpEnv) (s : CardState) (n txw txr fl : Nat)
    (htxw : txw = wordOf (s.memory (0x0400 + n * 0x100 + 0x25))
                         (s.memory (0x0400 + n * 0x100 + 0x24)))
    (htxr : txr = wordOf (s.memory (0x0400 + n * 0x100 + 0x23))
                         (s.memory (0x0400 + n * 0x100 + 0x22)))
    (hfl : fl = cdiff txw txr 0x800)
    (hpos : 0 < fl) (hmax : fl ≤ 1600)
    (hdet : detect_dhcp_type (txFrame s n) fl ≤ 0)
    (heth : ((txFrame s n) 12 <<< 8 ||| (txFrame s n) 13) = 0x0806) :
    (handle_macraw_send env s n =
      if 42 ≤ fl ∧ ((txFrame s n) 20 <<< 8 ||| (txFrame s n) 21) = 1
         ∧ (txFrame s n) 38 = 192 ∧ (txFrame s n) 39 = 168
         ∧ (txFrame s n) 40 = 65 ∧ (txFrame s n) 41 = 1
      then inject_arp_reply { s with memory := upd (upd s.memory (0x0400 + n * 0x100 + 0x22) (HIB txw)) (0x0400 + n * 0x100 + 0x23) (LOB txw) } n (txFrame s n)
      else { s with memory := upd (upd s.memory (0x0400 + n * 0x100 + 0x22) (HIB txw)) (0x0400 + n * 0x100 + 0x23) (LOB txw) })
    ∧ (¬(42 ≤ fl ∧ ((txFrame s n) 20 <<< 8 ||| (txFrame s n) 21) = 1
         ∧ (txFrame s n) 38 = 192 ∧ (txFrame s n) 39 = 168
         ∧ (txFrame s n) 40 = 65 ∧ (txFrame s n) 41 = 1) →
        (handle_macraw_send env s n).sockets n = s.sockets n)
    ∧ (∀ buf g : Nat → Nat,
        arpStage buf g 0 = 0 ∧ arpStage buf g 1 = 44 ∧
        arpStage buf g 22 = 0x00 ∧ arpStage buf g 23 = 0x02 ∧
        (∀ k, k < 6 → arpStage buf g (24 + k) = [0x02, 0x00, 0xDE, 0xAD, 0xBE, 0x01].getD k 0) ∧
        (∀ k, k < 4 → arpStage buf g (30 + k) = [192, 168, 65, 1].getD k 0) ∧
        (∀ k, k < 6 → arpStage buf g (34 + k) = g (22 + k)) ∧
        (∀ k, k < 4 → arpStage buf g (40 + k) = g (28 + k)))
    ∧ (∀ (s2 : CardState) (m : Nat) (g : Nat → Nat),
        ((inject_arp_reply s2 m g).sockets m).rx_buf = arpStage ((s2.sockets m).rx_buf) g
        ∧ ((inject_arp_reply s2 m g).sockets m).rx_head = 0
        ∧ ((inject_arp_reply s2 m g).sockets m).rx_tail = 44) := by
  have hmain : handle_macraw_send env s n =
      if 42 ≤ fl ∧ ((txFrame s n) 20 <<< 8 ||| (txFrame s n) 21) = 1
         ∧ (txFrame s n) 38 = 192 ∧ (txFrame s n) 39 = 168
         ∧ (txFrame s n) 40 = 65 ∧ (txFrame s n) 41 = 1
      then inject_arp_reply { s with memory := upd (upd s.memory (0x0400 + n * 0x100 + 0x22) (HIB txw)) (0x0400 + n * 0x100 + 0x23) (LOB txw) } n (txFrame s n)
      else { s with memory := upd (upd s.memory (0x0400 + n * 0x100 + 0x22) (HIB txw)) (0x0400 + n * 0x100 + 0x23) (LOB txw) } := by
    simp only [handle_macraw_send]
    rw [← htxw, ← htxr, ← hfl]
    rw [if_neg (show ¬(fl = 0 ∨ 1600 < fl) from by omega)]
    rw [if_neg (show ¬((0 : Int) < detect_dhcp_type (txFrame s n) fl) from not_lt.mpr hdet)]
    by_cases h14 : 14 ≤ fl
    · rw [if_pos h14, if_pos heth]
      simp only [handle_arp_packet]
      by_cases h42 : 42 ≤ fl
      · rw [if_neg (show ¬(fl < 42) from by omega)]
        by_cases hop : ((txFrame s n) 20 <<< 8 ||| (txFrame s n) 21) = 1
        · rw [if_neg (not_not_intro hop)]
          by_cases htgt : (txFrame s n) 38 = 192 ∧ (txFrame s n) 39 = 168
              ∧ (txFrame s n) 40 = 65 ∧ (txFrame s n) 41 = 1
          · rw [if_neg (not_not_intro htgt),
                if_pos ⟨h42, hop, htgt.1, htgt.2.1, htgt.2.2.1, htgt.2.2.2⟩]
          · rw [if_pos htgt,
                if_neg (fun hh => htgt ⟨hh.2.2.1, hh.2.2.2.1, hh.2.2.2.2.1, hh.2.2.2.2.2⟩)]
        · rw [if_pos hop, if_neg (fun hh => hop hh.2.1)]
      · rw [if_pos (show fl < 42 from by omega),
            if_neg (fun hh => h42 hh.1)]
    · rw [if_neg h14, if_neg (fun hh => h14 (le_trans (by norm_num) hh.1))]
  refine ⟨hmain, fun hneg => by rw [hmain, if_neg hneg], ?_, ?_⟩
  · intro buf g
    refine ⟨rfl, rfl, rfl, rfl, fun k hk => ?_, fun k hk => ?_,
      fun k hk => ?_, fun k hk => ?_⟩
    · interval_cases k <;> rfl
    · interval_cases k <;> rfl
    · interval_cases k <;> rfl
    · interval_cases k <;> rfl
  · intro s2 m g
    refine ⟨?_, ?_, ?_⟩ <;> simp [inject_arp_reply, updSock]

/-- C5 witness: a 42-byte ARP request for 192.168.65.1 in the socket 0
TX ring triggers the injection branch. -/
theorem c5_witness :
    (42 ≤ 42 ∧ ((txFrame stateC5 0) 20 <<< 8 ||| (txFrame stateC5 0) 21) = 1
       ∧ (txFrame stateC5 0) 38 = 192 ∧ (txFrame stateC5 0) 39 = 168
       ∧ (txFrame stateC5 0) 40 = 65 ∧ (txFrame stateC5 0) 41 = 1)
    ∧ handle_macraw_send tcpEnv0 stateC5 0 = inject_arp_reply { stateC5 with memory := upd (upd stateC5.memory (0x0400 + 0 * 0x100 + 0x22) (HIB 0x402A)) (0x0400 + 0 * 0x100 + 0x23) (LOB 0x402A) } 0 (txFrame stateC5 0) := by
  have hc : 42 ≤ 42 ∧ ((txFrame stateC5 0) 20 <<< 8 ||| (txFrame stateC5 0) 21) = 1
      ∧ (txFrame stateC5 0) 38 = 192 ∧ (txFrame stateC5 0) 39 = 168
      ∧ (txFrame stateC5 0) 40 = 65 ∧ (txFrame stateC5 0) 41 = 1 := by decide
  refine ⟨hc, ?_⟩
  rw [(c5_arp_reply_iff tcpEnv0 stateC5 0 0x402A 0x4000 42 (by decide) (by decide)
      (by decide) (by decide) (by decide) (by decide) (by decide)).1, if_pos hc]

set_option maxRecDepth 16384 in
/-- Fixed bytes of the ACK variant of the DHCP response packet: IP
destination 192.168.65.100 (offsets 32..35), BOOTP op 2 (offset 44) and
option 53 = [53, 1, 5] (offsets 284..286). -/
theorem dhcpPacket_ack_bytes (xid mac : Nat → Nat) :
    (dhcpPacket xid mac true).getD 32 0 = 192 ∧
    (dhcpPacket xid mac true).getD 33 0 = 168 ∧
    (dhcpPacket xid mac true).getD 34 0 = 65 ∧
    (dhcpPacket xid mac true).getD 35 0 = 100 ∧
    (dhcpPacket xid mac true).getD 44 0 = 2 ∧
    (dhcpPacket xid mac true).getD 284 0 = 53 ∧
    (dhcpPacket xid mac true).getD 285 0 = 1 ∧
    (dhcpPacket xid mac true).getD 286 0 = 5 := by
  refine ⟨?_, ?_, ?_, ?_, ?_, ?_, ?_, ?_⟩ <;> rfl

/-- Any byte of the finished DHCP response image other than the length
prefix and the IP checksum field is the corresponding packet byte. -/
theorem dhcpStage3_byte (buf xid mac : Nat → Nat) (j : Nat) (h2 : 2 ≤ j)
    (h26 : j ≠ 26) (h27 : j ≠ 27) (hlt : j < 344) :
    dhcpStage3 buf xid mac true j = (dhcpPacket xid mac true).getD j 0 := by
  simp only [dhcpStage3, dhcpStage2, dhcpStage1]
  rw [upd_other _ _ _ _ (by omega), upd_other _ _ _ _ (by omega),
      upd_other _ _ _ _ h27, upd_other _ _ _ _ h26,
      wrList_getD _ _ _ _ (by omega) (by rw [dhcpPacket_length]; omega)]
  simp

/-- C6: on a MAC-raw SEND of a frame detected as a DHCPREQUEST (option
53 message type 3), the adapter stages exactly one response frame
(head 0, tail 344, big-endian length prefix 344): a BOOTREPLY (op 2)
whose option 53 equals 5 (ACK) and whose IP destination is
192.168.65.100, and writes SIPR = 192.168.65.100, GAR = 192.168.65.1
and SUBR = 255.255.255.0 into the common-register bank; the DHCP state
machine ends in complete. -/
theorem c6_dhcp_request_ack (env : TcpEnv) (s : CardState) (n txw txr fl : Nat)
    (htxw : txw = wordOf (s.memory (0x0400 + n * 0x100 + 0x25))
                         (s.memory (0x0400 + n * 0x100 + 0x24)))
    (htxr : txr = wordOf (s.memory (0x0400 + n * 0x100 + 0x23))
                         (s.memory (0x0400 + n * 0x100 + 0x22)))
    (hfl : fl = cdiff txw txr 0x800)
    (hpos : 0 < fl) (hmax : fl ≤ 1600)
    (hdet : detect_dhcp_type (txFrame s n) fl = 3) :
    (handle_macraw_send env s n).dhcp_state = DhcpState.complete
    ∧ ((handle_macraw_send env s n).sockets n).rx_head = 0
    ∧ ((handle_macraw_send env s n).sockets n).rx_tail = 344
    ∧ ((handle_macraw_send env s n).sockets n).rx_buf 0 = 1
    ∧ ((handle_macraw_send env s n).sockets n).rx_buf 1 = 0x58
    ∧ ((handle_macraw_send env s n).sockets n).rx_buf 44 = 2
    ∧ ((handle_macraw_send env s n).sockets n).rx_buf 284 = 53
    ∧ ((handle_macraw_send env s n).sockets n).rx_buf 285 = 1
    ∧ ((handle_macraw_send env s n).sockets n).rx_buf 286 = 5
    ∧ ((handle_macraw_send env s n).sockets n).rx_buf 32 = 192
    ∧ ((handle_macraw_send env s n).sockets n).rx_buf 33 = 168
    ∧ ((handle_macraw_send env s n).sockets n).rx_buf 34 = 65
    ∧ ((handle_macraw_send env s n).sockets n).rx_buf 35 = 100
    ∧ (handle_macraw_send env s n).memory 0x0F = 192
    ∧ (handle_macraw_send env s n).memory 0x10 = 168
    ∧ (handle_macraw_send env s n).memory 0x11 = 65
    ∧ (handle_macraw_send env s n).memory 0x12 = 100
    ∧ (handle_macraw_send env s n).memory 0x01 = 192
    ∧ (handle_macraw_send env s n).memory 0x02 = 168
    ∧ (handle_macraw_send env s n).memory 0x03 = 65
    ∧ (handle_macraw_send env s n).memory 0x04 = 1
    ∧ (handle_macraw_send env s n).memory 0x05 = 255
    ∧ (handle_macraw_send env s n).memory 0x06 = 255
    ∧ (handle_macraw_send env s n).memory 0x07 = 255
    ∧ (handle_macraw_send env s n).memory 0x08 = 0 := by
  simp only [handle_macraw_send]
  rw [← htxw, ← htxr, ← hfl]
  rw [if_neg (show ¬(fl = 0 ∨ 1600 < fl) from by omega), hdet]
  rw [if_pos (show (0 : Int) < 3 from by decide),
      if_neg (show ¬((3 : Int) = 1) from by decide),
      if_pos (show (3 : Int) = 3 from rfl)]
  refine ⟨rfl, ?_, ?_, ?_, ?_, ?_, ?_, ?_, ?_, ?_, ?_, ?_, ?_,
    ?_, ?_, ?_, ?_, ?_, ?_, ?_, ?_, ?_, ?_, ?_, ?_⟩
  · simp [inject_dhcp_response, updSock]
  · simp [inject_dhcp_response, updSock]
  · simp [inject_dhcp_response, updSock]
    simp only [dhcpStage3]
    rw [upd_other _ _ _ _ (by omega), upd_self]
    decide
  · simp [inject_dhcp_response, updSock]
    simp only [dhcpStage3]
    rw [upd_self]
    decide
  · simp [inject_dhcp_response, updSock]
    rw [dhcpStage3_byte _ _ _ _ (by omega) (by omega) (by omega) (by omega)]
    exact (dhcpPacket_ack_bytes _ _).2.2.2.2.1
  · simp [inject_dhcp_response, updSock]
    rw [dhcpStage3_byte _ _ _ _ (by omega) (by omega) (by omega) (by omega)]
    exact (dhcpPacket_ack_bytes _ _).2.2.2.2.2.1
  · simp [inject_dhcp_response, updSock]
    rw [dhcpStage3_byte _ _ _ _ (by omega) (by omega) (by omega) (by omega)]
    exact (dhcpPacket_ack_bytes _ _).2.2.2.2.2.2.1
  · simp [inject_dhcp_response, updSock]
    rw [dhcpStage3_byte _ _ _ _ (by omega) (by omega) (by omega) (by omega)]
    exact (dhcpPacket_ack_bytes _ _).2.2.2.2.2.2.2
  · simp [inject_dhcp_response, updSock]
    rw [dhcpStage3_byte _ _ _ _ (by omega) (by omega) (by omega) (by omega)]
    exact (dhcpPacket_ack_bytes _ _).1
  · simp [inject_dhcp_response, updSock]
    rw [dhcpStage3_byte _ _ _ _ (by omega) (by omega) (by omega) (by omega)]
    exact (dhcpPacket_ack_bytes _ _).2.1
  · simp [inject_dhcp_response, updSock]
    rw [dhcpStage3_byte _ _ _ _ (by omega) (by omega) (by omega) (by omega)]
    exact (dhcpPacket_ack_bytes _ _).2.2.1
  · simp [inject_dhcp_response, updSock]
    rw [dhcpStage3_byte _ _ _ _ (by omega) (by omega) (by omega) (by omega)]
    exact (dhcpPacket_ack_bytes _ _).2.2.2.1
  · simp only [inject_dhcp_response, updSock]
    rw [wrList_ge _ _ _ _ (by decide), wrList_ge _ _ _ _ (by decide),
        wrList_getD _ _ _ _ (by decide) (by decide)]
    decide
  · simp only [inject_dhcp_response, updSock]
    rw [wrList_ge _ _ _ _ (by decide), wrList_ge _ _ _ _ (by decide),
        wrList_getD _ _ _ _ (by decide) (by decide)]
    decide
  · simp only [inject_dhcp_response, updSock]
    rw [wrList_ge _ _ _ _ (by decide), wrList_ge _ _ _ _ (by decide),
        wrList_getD _ _ _ _ (by decide) (by decide)]
    decide
  · simp only [inject_dhcp_response, updSock]
    rw [wrList_ge _ _ _ _ (by decide), wrList_ge _ _ _ _ (by decide),
        wrList_getD _ _ _ _ (by decide) (by decide)]
    decide
  · simp only [inject_dhcp_response, updSock]
    rw [wrList_lt _ _ _ _ (by decide), wrList_getD _ _ _ _ (by decide) (by decide)]
    decide
  · simp only [inject_dhcp_response, updSock]
    rw [wrList_lt _ _ _ _ (by decide), wrList_getD _ _ _ _ (by decide) (by decide)]
    decide
  · simp only [inject_dhcp_response, updSock]
    rw [wrList_lt _ _ _ _ (by decide), wrList_getD _ _ _ _ (by decide) (by decide)]
    decide
  · simp only [inject_dhcp_response, updSock]
    rw [wrList_lt _ _ _ _ (by decide), wrList_getD _ _ _ _ (by decide) (by decide)]
    decide
  · simp only [inject_dhcp_response, updSock]
    rw [wrList_getD _ _ _ _ (by decide) (by decide)]
    decide
  · simp only [inject_dhcp_response, updSock]
    rw [wrList_getD _ _ _ _ (by decide) (by decide)]
    decide
  · simp only [inject_dhcp_response, updSock]
    rw [wrList_getD _ _ _ _ (by decide) (by decide)]
    decide
  · simp only [inject_dhcp_response, updSock]
    rw [wrList_getD _ _ _ _ (by decide) (by decide)]
    decide

/-- C6 witness: a 300-byte DHCPREQUEST in the socket 0 TX ring yields
the ACK injection and the SIPR/GAR/SUBR writes. -/
theorem c6_witness :
    (handle_macraw_send tcpEnv0 stateC6 0).dhcp_state = DhcpState.complete
    ∧ ((handle_macraw_send tcpEnv0 stateC6 0).sockets 0).rx_buf 286 = 5
    ∧ ((handle_macraw_send tcpEnv0 stateC6 0).sockets 0).rx_buf 32 = 192
    ∧ (handle_macraw_send tcpEnv0 stateC6 0).memory 0x0F = 192
    ∧ (handle_macraw_send tcpEnv0 stateC6 0).memory 0x05 = 255 := by
  have hscan : dhcp_opt_scan (txFrame stateC6 0) 300 282 = 3 := by
    rw [dhcp_opt_scan,
        dif_pos (show 282 < 300 ∧ txFrame stateC6 0 282 ≠ 255 from by decide),
        if_neg (show ¬(txFrame stateC6 0 282 = 0) from by decide),
        if_pos (show txFrame stateC6 0 282 = 53 ∧ 282 + 2 < 300 from by decide)]
    decide
  have hdet : detect_dhcp_type (txFrame stateC6 0) 300 = 3 := by
    simp only [detect_dhcp_type]
    rw [if_neg (show ¬(300 < 286) from by decide),
        if_neg (show ¬¬(txFrame stateC6 0 12 = 0x08 ∧ txFrame stateC6 0 13 = 0x00) from by decide),
        if_neg (show ¬(txFrame stateC6 0 23 ≠ 17) from by decide),
        if_neg (show ¬¬(((txFrame stateC6 0 34 <<< 8) ||| txFrame stateC6 0 35) = 68
          ∧ ((txFrame stateC6 0 36 <<< 8) ||| txFrame stateC6 0 37) = 67) from by decide),
        if_neg (show ¬¬(txFrame stateC6 0 278 = 99 ∧ txFrame stateC6 0 279 = 130
          ∧ txFrame stateC6 0 280 = 83 ∧ txFrame stateC6 0 281 = 99) from by decide)]
    exact hscan
  obtain ⟨h1, h2, h3, h4, h5, h6, h7, h8, h9, h10, h11, h12, h13, h14, h15, h16,
      h17, h18, h19, h20, h21, h22, h23, h24, h25⟩ :=
    c6_dhcp_request_ack tcpEnv0 stateC6 0 0x412C 0x4000 300
      (by decide) (by decide) (by decide) (by decide) (by decide) hdet
  exact ⟨h1, h9, h10, h14, h22⟩

end Uthernet2
